import Mathlib

/-!
# golang-qdrant: HTTP bridge in front of a Qdrant vector store

A shallow embedding of `src/qdrantUtils/client.go` and `src/cmd/main.go`.

Every call that leaves the process (the Qdrant gRPC stubs, the OpenAI client,
`http.Post`, `uuid.New`, the JSON decoder) is a field of `Env`, a deterministic
transition system over an arbitrary state type `σ`.  The Go functions are state
passing functions that additionally return the list of calls they made
(`Event`), in program order.  `QdrantClient.Search` is recursive in the source
without a decreasing argument, so its embedding takes the depth of nested
`Search` calls that is available and returns `none` when that depth is used up.
In Go the nested call `return qc.Search(vector)` takes a new stack frame each
time, so a run that needs more depth than the goroutine stack allows does not
return either: it ends in the fatal stack overflow of the process.

Conventions.
* A Go `error` is `Option GoError` (`none` is `nil`); `err.Error()` is
  `GoError.message`.
* A Go slice is a `List`; the `nil` slice and the empty slice are both `[]`
  (the program only ever takes `len` of its slices).
* `float32`/`float64` values are carried around but never computed with,
  except for the narrowing conversion, which is a field of `Env`.
* Calls to the loggers are diagnostics only and are left out.
-/

namespace GoQdrant

/-! ## Values -/

/-- Go `error` value; `message` is what `Error()` returns. -/
structure GoError where
  message : String
deriving DecidableEq, Repr

/-- Go `float32`, identified by its bit pattern. -/
structure Float32 where
  bits : Nat
deriving DecidableEq, Repr

/-- Go `float64`, identified by its bit pattern. -/
structure Float64 where
  bits : Nat
deriving DecidableEq, Repr

/-! ## `strings.Contains` -/

/-- Does `s` start with `sub`? -/
def startsWith : List Char → List Char → Bool
  | _, [] => true
  | [], _ :: _ => false
  | c :: cs, d :: ds => c == d && startsWith cs ds

/-- Does `sub` occur in `s` as a contiguous block? -/
def containsChars : List Char → List Char → Bool
  | [], sub => startsWith [] sub
  | c :: cs, sub => startsWith (c :: cs) sub || containsChars cs sub

/-- Go `strings.Contains(s, substr)`. -/
def stringsContains (s substr : String) : Bool :=
  containsChars s.data substr.data

/-! ## `qdrantUtils/client.go` -/

/-- Constant `ErrNotFound`. -/
def ErrNotFound : String := "Not found"

/-- Constant `ErrAlreadyExists`. -/
def ErrAlreadyExists : String := "already exists"

/-- Message `pb.Value`; the program only builds string values. -/
inductive pb.Value where
  | stringValue (v : String)
deriving DecidableEq, Repr

/-- Enumeration `pb.Distance`. -/
inductive pb.Distance where
  | UnknownDistance
  | Cosine
  | Euclid
  | Dot
deriving DecidableEq, Repr

/-- Message `pb.PointStruct` with a uuid identifier and a single unnamed vector. -/
structure pb.PointStruct where
  id : String
  vectors : List Float32
  payload : List (String × pb.Value)
deriving DecidableEq, Repr

/-- Message `pb.DeleteCollection`. -/
structure pb.DeleteCollection where
  collectionName : String
deriving DecidableEq, Repr

/-- Message `pb.CreateCollection` with a single `VectorParams` configuration. -/
structure pb.CreateCollection where
  collectionName : String
  size : Nat
  distance : pb.Distance
deriving DecidableEq, Repr

/-- Message `pb.UpsertPoints`; `wait` is the optional boolean field. -/
structure pb.UpsertPoints where
  collectionName : String
  points : List pb.PointStruct
  wait : Option Bool
deriving DecidableEq, Repr

/-- Message `pb.SearchPoints`; `withPayloadInclude` is the include selector's field list. -/
structure pb.SearchPoints where
  collectionName : String
  vector : List Float32
  limit : Nat
  withPayloadInclude : List String
deriving DecidableEq, Repr

/-- Message `pb.ScoredPoint`. -/
structure pb.ScoredPoint where
  id : String
  payload : List (String × pb.Value)
  score : Float32
deriving DecidableEq, Repr

/-- Message `pb.SearchResponse`. -/
structure pb.SearchResponse where
  result : List pb.ScoredPoint
deriving DecidableEq, Repr

/-- Request of `openai.Client.CreateEmbeddings`. -/
structure openai.EmbeddingRequest where
  input : List String
  model : String
deriving DecidableEq, Repr

/-- One element of `openai.EmbeddingResponse.Data`. -/
structure openai.Embedding where
  embedding : List Float64
deriving DecidableEq, Repr

/-- Response of `openai.Client.CreateEmbeddings`. -/
structure openai.EmbeddingResponse where
  data : List openai.Embedding
deriving DecidableEq, Repr

/-- Constant `openai.AdaEmbeddingV2`. -/
def openai.AdaEmbeddingV2 : String := "text-embedding-ada-002"

/-- Body type `addRequest` of `/add`. -/
structure addRequest where
  text : String
  vector : List Float32
  payload : List (String × String)
deriving DecidableEq, Repr

/-- Body type `deleteRequest` of `/delete`. -/
structure deleteRequest where
  collection : String
deriving DecidableEq, Repr

/-- One call made by the program, in the order the calls happen.  The `client*` and
`getEmbedding` events mark the entry into the function of that name; the others are the
calls that leave the process, the store calls together with the error they returned. -/
inductive Event where
  | getEmbedding (text : String)
  | openaiCreateEmbeddings (req : openai.EmbeddingRequest)
  | httpPost (url contentType : String) (body : List (String × String))
  | clientDeleteCollection (name : String)
  | clientCreateCollection (name : String) (size : Nat)
  | clientCreatePoint (uuid collection : String) (vector : List Float32)
      (payload : List (String × String))
  | clientSearch (vector : List Float32)
  | collectionsDelete (req : pb.DeleteCollection) (err : Option GoError)
  | collectionsCreate (req : pb.CreateCollection) (err : Option GoError)
  | pointsUpsert (req : pb.UpsertPoints) (err : Option GoError)
  | pointsSearch (req : pb.SearchPoints) (err : Option GoError)
deriving DecidableEq, Repr

/-- The collaborators of the process, as a deterministic transition system on `σ`. -/
structure Env (σ : Type) where
  /-- Decoding of the `/add` body: `json.NewDecoder(r.Body).Decode(&req)`. -/
  jsonDecodeAdd : String → Except GoError addRequest
  /-- Decoding of the `/delete` body. -/
  jsonDecodeDelete : String → Except GoError deleteRequest
  /-- Call `json.Unmarshal(data, &result)` for a struct with one `[]float32` field of the
  given JSON name. -/
  jsonUnmarshalFloats : String → String → Except GoError (List Float32)
  /-- Conversion `float32(v)`. -/
  toFloat32 : Float64 → Float32
  /-- Call `uuid.New().String()`. -/
  uuidNew : σ → String × σ
  /-- Call `openaiClient.CreateEmbeddings`. -/
  openaiCreateEmbeddings :
    σ → openai.EmbeddingRequest → Except GoError openai.EmbeddingResponse × σ
  /-- Call `http.Post(url, contentType, body)` followed by reading the whole response body;
  the request body is the JSON object before marshalling. -/
  httpPost : σ → String → String → List (String × String) → Except GoError String × σ
  /-- Call `pb.CollectionsClient.Delete`. -/
  collectionsDelete : σ → pb.DeleteCollection → Option GoError × σ
  /-- Call `pb.CollectionsClient.Create`. -/
  collectionsCreate : σ → pb.CreateCollection → Option GoError × σ
  /-- Call `pb.PointsClient.Upsert`. -/
  pointsUpsert : σ → pb.UpsertPoints → Option GoError × σ
  /-- Call `pb.PointsClient.Search`. -/
  pointsSearch : σ → pb.SearchPoints → Except GoError pb.SearchResponse × σ

/-- Result of running a piece of the program: the returned value, the state of the
collaborators afterwards, and the calls made. -/
structure Out (σ β : Type) where
  val : β
  st : σ
  trace : List Event

/-- The error component of a Go `(value, error)` result. -/
def errOf {β : Type} : Except GoError β → Option GoError
  | .error e => some e
  | .ok _ => none

/-- Struct `QdrantClient` without its connection. -/
structure QdrantClient where
  collection : String
  size : Nat
deriving DecidableEq, Repr

/-- Function `NewQdrantClient`, after a successful dial. -/
def NewQdrantClient (_qdrantAddr collection : String) (size : Nat) : QdrantClient :=
  { collection := collection, size := size }

/-- The `pb.CreateCollection` message built by `CreateCollection`: one vector
configuration of the given size with cosine distance. -/
def createRequest (name : String) (size : Nat) : pb.CreateCollection :=
  { collectionName := name, size := size, distance := pb.Distance.Cosine }

/-- The `pb.SearchPoints` message built by `Search`: the client's collection, three
results, and the payload fields `question` and `answers`. -/
def QdrantClient.searchRequest (qc : QdrantClient) (vector : List Float32) : pb.SearchPoints :=
  { collectionName := qc.collection, vector := vector, limit := 3,
    withPayloadInclude := ["question", "answers"] }

/-- Function `toPayload`. -/
def toPayload (payload : List (String × String)) : List (String × pb.Value) :=
  payload.map (fun kv => (kv.1, pb.Value.stringValue kv.2))

/-- Method `QdrantClient.DeleteCollection`. -/
def QdrantClient.DeleteCollection {σ : Type} (_qc : QdrantClient) (env : Env σ)
    (name : String) (s : σ) : Out σ (Option GoError) :=
  let req : pb.DeleteCollection := { collectionName := name }
  let r := env.collectionsDelete s req
  ⟨r.1, r.2, [Event.clientDeleteCollection name, Event.collectionsDelete req r.1]⟩

/-- Method `QdrantClient.CreateCollection`. -/
def QdrantClient.CreateCollection {σ : Type} (_qc : QdrantClient) (env : Env σ)
    (name : String) (size : Nat) (s : σ) : Out σ (Option GoError) :=
  let req := createRequest name size
  let r := env.collectionsCreate s req
  let tr := [Event.clientCreateCollection name size, Event.collectionsCreate req r.1]
  match r.1 with
  | some err =>
    if stringsContains err.message ErrAlreadyExists then ⟨none, r.2, tr⟩
    else ⟨some err, r.2, tr⟩
  | none => ⟨none, r.2, tr⟩

/-- Method `QdrantClient.CreatePoints`. -/
def QdrantClient.CreatePoints {σ : Type} (qc : QdrantClient) (env : Env σ)
    (points : List pb.PointStruct) (s : σ) : Out σ (Option GoError) :=
  let pointsReq : pb.UpsertPoints :=
    { collectionName := qc.collection, points := points, wait := some true }
  let r := env.pointsUpsert s pointsReq
  ⟨r.1, r.2, [Event.pointsUpsert pointsReq r.1]⟩

/-- Method `QdrantClient.CreatePoint`. -/
def QdrantClient.CreatePoint {σ : Type} (_qc : QdrantClient) (env : Env σ)
    (uuid collection : String) (vector : List Float32) (payload : List (String × String))
    (s : σ) : Out σ (Option GoError) :=
  let point : pb.PointStruct := { id := uuid, vectors := vector, payload := toPayload payload }
  let points : pb.UpsertPoints :=
    { collectionName := collection, points := [point], wait := some true }
  let r := env.pointsUpsert s points
  ⟨r.1, r.2, [Event.clientCreatePoint uuid collection vector payload,
    Event.pointsUpsert points r.1]⟩

/-- Method `QdrantClient.Search`.  The first argument is the depth of nested calls
`return qc.Search(vector)` that is available (in Go, what the goroutine stack allows); the
value is `none` when that depth is used up, in which case `Search` does not return to its
caller. -/
def QdrantClient.Search {σ : Type} (qc : QdrantClient) (env : Env σ) :
    Nat → List Float32 → σ → Out σ (Option (List pb.ScoredPoint × Option GoError))
  | 0, _, s => ⟨none, s, []⟩
  | fuel + 1, vector, s =>
    let req := qc.searchRequest vector
    let r := env.pointsSearch s req
    let tr := [Event.clientSearch vector, Event.pointsSearch req (errOf r.1)]
    match r.1 with
    | .error err =>
      if stringsContains err.message ErrNotFound then
        let c := qc.CreateCollection env qc.collection qc.size r.2
        match c.val with
        | some err2 => ⟨some ([], some err2), c.st, tr ++ c.trace⟩
        | none =>
          let o := QdrantClient.Search qc env fuel vector c.st
          ⟨o.val, o.st, tr ++ (c.trace ++ o.trace)⟩
      else ⟨some ([], some err), r.2, tr⟩
    | .ok rsp => ⟨some (rsp.result, none), r.2, tr⟩

/-! ## `cmd/main.go` -/

/-- Constant `qdrantAddress`. -/
def qdrantAddress : String := "10.100.2.1:6334"

/-- Constant `collection`. -/
def collection : String := "test_collection"

/-- Constant `vectorSize`. -/
def vectorSize : Nat := 1536

/-- Constant `embeddingOpenAI` of the string type `embeddingMode`. -/
def embeddingOpenAI : String := "openai"

/-- Constant `embeddingOllama`. -/
def embeddingOllama : String := "ollama"

/-- Constant `embeddingLocal`. -/
def embeddingLocal : String := "local"

/-- Variable `ollamaURL`. -/
def ollamaURL : String := "http://localhost:11434/api/embeddings"

/-- Variable `localEmbedURL`. -/
def localEmbedURL : String := "http://localhost:8000/embed"

/-- The part of an `*http.Request` the handlers read. -/
structure Request where
  method : String
  query : List (String × String)
  body : String
deriving DecidableEq, Repr

/-- Method `url.Values.Get`: the first value of the key, or the empty string. -/
def queryGet : List (String × String) → String → String
  | [], _ => ""
  | (k, v) :: rest, key => if k = key then v else queryGet rest key

/-- What a handler writes: plain text (`http.Error`) or an encoded JSON value. -/
inductive Body where
  | text (msg : String)
  | jsonMap (m : List (String × String))
  | jsonResults (results : List pb.ScoredPoint)
deriving DecidableEq, Repr

/-- Status code and body written to the `http.ResponseWriter`. -/
structure Response where
  status : Nat
  body : Body
deriving DecidableEq, Repr

/-- Function `http.Error(w, msg, code)`. -/
def httpError (msg : String) (code : Nat) : Response :=
  { status := code, body := Body.text msg }

/-- Start of `main`: the embedding source chosen from `EMBEDDING_MODE`, or the message of
`log.Fatal` when the OpenAI key is required and missing. -/
def mainEmbeddingSource (envEmbeddingMode openaiKey : String) : Except String String :=
  let embeddingSource := if envEmbeddingMode ≠ "" then envEmbeddingMode else embeddingOpenAI
  if openaiKey = "" ∧ embeddingSource = embeddingOpenAI then
    .error "请设置 OPENAI_API_KEY 环境变量"
  else .ok embeddingSource

/-- Function `getOpenAIEmbedding`. -/
def getOpenAIEmbedding {σ : Type} (env : Env σ) (text : String) (s : σ) :
    Out σ (List Float32 × Option GoError) :=
  let req : openai.EmbeddingRequest := { input := [text], model := openai.AdaEmbeddingV2 }
  let r := env.openaiCreateEmbeddings s req
  let tr := [Event.openaiCreateEmbeddings req]
  match r.1 with
  | .error err => ⟨([], some err), r.2, tr⟩
  | .ok resp =>
    match resp.data with
    | [] => ⟨([], none), r.2, tr⟩
    | d :: _ => ⟨(d.embedding.map env.toFloat32, none), r.2, tr⟩

/-- Function `getOllamaEmbedding`. -/
def getOllamaEmbedding {σ : Type} (env : Env σ) (text : String) (s : σ) :
    Out σ (List Float32 × Option GoError) :=
  let body := [("model", "nomic-embed-text"), ("prompt", text)]
  let r := env.httpPost s ollamaURL "application/json" body
  let tr := [Event.httpPost ollamaURL "application/json" body]
  match r.1 with
  | .error err => ⟨([], some err), r.2, tr⟩
  | .ok data =>
    match env.jsonUnmarshalFloats "embedding" data with
    | .error err => ⟨([], some err), r.2, tr⟩
    | .ok embedding => ⟨(embedding, none), r.2, tr⟩

/-- Function `getLocalEmbedding`. -/
def getLocalEmbedding {σ : Type} (env : Env σ) (text : String) (s : σ) :
    Out σ (List Float32 × Option GoError) :=
  let body := [("text", text)]
  let r := env.httpPost s localEmbedURL "application/json" body
  let tr := [Event.httpPost localEmbedURL "application/json" body]
  match r.1 with
  | .error err => ⟨([], some err), r.2, tr⟩
  | .ok data =>
    match env.jsonUnmarshalFloats "vector" data with
    | .error err => ⟨([], some err), r.2, tr⟩
    | .ok vector => ⟨(vector, none), r.2, tr⟩

/-- Function `getEmbedding`, with the global `embeddingSource` as an argument. -/
def getEmbedding {σ : Type} (env : Env σ) (embeddingSource text : String) (s : σ) :
    Out σ (List Float32 × Option GoError) :=
  if embeddingSource = embeddingOpenAI then
    let o := getOpenAIEmbedding env text s
    ⟨o.val, o.st, Event.getEmbedding text :: o.trace⟩
  else if embeddingSource = embeddingOllama then
    let o := getOllamaEmbedding env text s
    ⟨o.val, o.st, Event.getEmbedding text :: o.trace⟩
  else if embeddingSource = embeddingLocal then
    let o := getLocalEmbedding env text s
    ⟨o.val, o.st, Event.getEmbedding text :: o.trace⟩
  else ⟨([], none), s, [Event.getEmbedding text]⟩

/-- Handler of `/search`.  The value is `none` when `client.Search` used up the recursion
budget `fuel`. -/
def searchHandler {σ : Type} (env : Env σ) (embeddingSource : String) (client : QdrantClient)
    (fuel : Nat) (r : Request) (s : σ) : Out σ (Option Response) :=
  let searchTerm := queryGet r.query "term"
  if searchTerm = "" then ⟨some (httpError "Missing search term" 400), s, []⟩
  else
    let e := getEmbedding env embeddingSource searchTerm s
    match e.val.2 with
    | some err => ⟨some (httpError ("Embedding error: " ++ err.message) 500), e.st, e.trace⟩
    | none =>
      let vector := e.val.1
      if vector.length ≠ vectorSize then
        ⟨some (httpError "Embedding size mismatch" 500), e.st, e.trace⟩
      else
        let o := client.Search env fuel vector e.st
        match o.val with
        | none => ⟨none, o.st, e.trace ++ o.trace⟩
        | some (_, some err) =>
          ⟨some (httpError ("Qdrant search error: " ++ err.message) 500), o.st,
            e.trace ++ o.trace⟩
        | some (results, none) =>
          ⟨some { status := 200, body := Body.jsonResults results }, o.st, e.trace ++ o.trace⟩

/-- Handler of `/add`. -/
def addHandler {σ : Type} (env : Env σ) (embeddingSource : String) (client : QdrantClient)
    (r : Request) (s : σ) : Out σ Response :=
  if r.method ≠ "POST" then ⟨httpError "Method not allowed" 405, s, []⟩
  else
    match env.jsonDecodeAdd r.body with
    | .error _ => ⟨httpError "Invalid request" 400, s, []⟩
    | .ok req =>
      -- `var vector []float32` and the three-way choice that fills it or returns early
      let chosen : Out σ (Except Response (List Float32)) :=
        if req.vector.length = vectorSize then ⟨.ok req.vector, s, []⟩
        else if req.text ≠ "" then
          let e := getEmbedding env embeddingSource req.text s
          match e.val.2 with
          | some err =>
            ⟨.error (httpError ("Embedding error: " ++ err.message) 500), e.st, e.trace⟩
          | none => ⟨.ok e.val.1, e.st, e.trace⟩
        else ⟨.error (httpError "Missing vector or text" 400), s, []⟩
      match chosen.val with
      | .error resp => ⟨resp, chosen.st, chosen.trace⟩
      | .ok vector =>
        if vector.length ≠ vectorSize then
          ⟨httpError "Embedding size mismatch" 500, chosen.st, chosen.trace⟩
        else
          let u := env.uuidNew chosen.st
          let c := client.CreatePoint env u.1 collection vector req.payload u.2
          match c.val with
          | some err =>
            ⟨httpError ("Failed to add vector: " ++ err.message) 500, c.st,
              chosen.trace ++ c.trace⟩
          | none =>
            ⟨{ status := 200, body := Body.jsonMap [("id", u.1), ("status", "ok")] }, c.st,
              chosen.trace ++ c.trace⟩

/-- Handler of `/delete`. -/
def deleteHandler {σ : Type} (env : Env σ) (client : QdrantClient) (r : Request) (s : σ) :
    Out σ Response :=
  if r.method ≠ "POST" then ⟨httpError "Method not allowed" 405, s, []⟩
  else
    match env.jsonDecodeDelete r.body with
    | .error _ => ⟨httpError "Invalid request" 400, s, []⟩
    | .ok req =>
      if req.collection = "" then ⟨httpError "Invalid request" 400, s, []⟩
      else
        let d := client.DeleteCollection env req.collection s
        match d.val with
        | some err =>
          ⟨httpError ("Failed to delete collection: " ++ err.message) 500, d.st, d.trace⟩
        | none => ⟨{ status := 200, body := Body.jsonMap [("status", "ok")] }, d.st, d.trace⟩

/-- The client built in `main`. -/
def mainClient : QdrantClient := NewQdrantClient qdrantAddress collection vectorSize

/-! ## Observations on traces -/

/-- Is the event a call of the vector store (a client method or one of its gRPC calls)? -/
def Event.isStore : Event → Bool
  | .clientDeleteCollection _ => true
  | .clientCreateCollection _ _ => true
  | .clientCreatePoint _ _ _ _ => true
  | .clientSearch _ => true
  | .collectionsDelete _ _ => true
  | .collectionsCreate _ _ => true
  | .pointsUpsert _ _ => true
  | .pointsSearch _ _ => true
  | _ => false

/-- Is the event a call of `getEmbedding` or of an embedding provider? -/
def Event.isEmbedding : Event → Bool
  | .getEmbedding _ => true
  | .openaiCreateEmbeddings _ => true
  | .httpPost _ _ _ => true
  | _ => false

/-- Every vector the event hands to the store has exactly `vectorSize` elements. -/
def Event.vectorsSized : Event → Bool
  | .clientCreatePoint _ _ vector _ => vector.length == vectorSize
  | .clientSearch vector => vector.length == vectorSize
  | .pointsUpsert req _ => req.points.all (fun p => p.vectors.length == vectorSize)
  | .pointsSearch req _ => req.vector.length == vectorSize
  | _ => true

/-- Is the event a `Search` call to the backend? -/
def Event.isPointsSearch : Event → Bool
  | .pointsSearch _ _ => true
  | _ => false

/-- Is the event a `Create` (collection) call to the backend? -/
def Event.isCollectionsCreate : Event → Bool
  | .collectionsCreate _ _ => true
  | _ => false

/-- Is the event a backend `Search` call that reported an error containing "Not found"? -/
def Event.isMissedSearch : Event → Bool
  | .pointsSearch _ (some e) => stringsContains e.message ErrNotFound
  | _ => false

/-- Number of `Search` calls to the backend in a trace. -/
def numSearchCalls (tr : List Event) : Nat := tr.countP Event.isPointsSearch

/-- Number of `Create` calls to the backend in a trace. -/
def numCreateCalls (tr : List Event) : Nat := tr.countP Event.isCollectionsCreate

/-- Number of backend `Search` calls in a trace that reported "Not found". -/
def numMissedSearches (tr : List Event) : Nat := tr.countP Event.isMissedSearch

/-! ## Concrete collaborators

Small executable collaborators on which the general statements are instantiated. -/

/-- A vector of `vectorSize` zeros. -/
def sampleVector : List Float32 := List.replicate 1536 ⟨0⟩

/-- An in-memory stand-in for the collaborators.  The state is the list of existing
collections: creating an existing collection and searching or deleting a missing one are
errors with Qdrant-style messages.  The decoders know a few literal bodies; every
provider answers with `sampleVector`. -/
def memEnv : Env (List String) where
  jsonDecodeAdd := fun b =>
    if b = "\x7b\x7d" then .ok { text := "", vector := [], payload := [] }
    else if b = "\x7b\"text\":\"hi\"\x7d" then .ok { text := "hi", vector := [], payload := [] }
    else if b = "\x7b\"text\":\"hi\",\"vector\":[0]\x7d" then
      .ok { text := "hi", vector := [⟨0⟩], payload := [] }
    else .error ⟨"unexpected end of JSON input"⟩
  jsonDecodeDelete := fun b =>
    if b = "\x7b\x7d" then .ok { collection := "" }
    else if b = "\x7b\"collection\":\"test_collection\"\x7d" then
      .ok { collection := "test_collection" }
    else .error ⟨"unexpected end of JSON input"⟩
  jsonUnmarshalFloats := fun _ _ => .ok sampleVector
  toFloat32 := fun x => ⟨x.bits⟩
  uuidNew := fun s => ("6ba7b810-9dad-41d1-80b4-00c04fd430c8", s)
  openaiCreateEmbeddings := fun s _ => (.ok { data := [⟨List.replicate 1536 ⟨0⟩⟩] }, s)
  httpPost := fun s _ _ _ => (.ok "", s)
  collectionsDelete := fun s req =>
    if req.collectionName ∈ s then (none, s.filter (fun c => c ≠ req.collectionName))
    else (some ⟨"Not found: Collection " ++ req.collectionName ++ " does not exist"⟩, s)
  collectionsCreate := fun s req =>
    if req.collectionName ∈ s then
      (some ⟨"Wrong input: Collection " ++ req.collectionName ++ " already exists"⟩, s)
    else (none, req.collectionName :: s)
  pointsUpsert := fun s req =>
    if req.collectionName ∈ s then (none, s)
    else (some ⟨"Not found: Collection " ++ req.collectionName ++ " does not exist"⟩, s)
  pointsSearch := fun s req =>
    if req.collectionName ∈ s then (.ok { result := [] }, s)
    else (.error ⟨"Not found: Collection " ++ req.collectionName ++ " does not exist"⟩, s)

/-- Collaborators whose state counts the backend searches made so far: the first `n`
searches report `Not found`, later ones succeed with no results, and creating a collection
always succeeds. -/
def missEnv (n : Nat) : Env Nat where
  jsonDecodeAdd := memEnv.jsonDecodeAdd
  jsonDecodeDelete := memEnv.jsonDecodeDelete
  jsonUnmarshalFloats := memEnv.jsonUnmarshalFloats
  toFloat32 := memEnv.toFloat32
  uuidNew := fun s => ("6ba7b810-9dad-41d1-80b4-00c04fd430c8", s)
  openaiCreateEmbeddings := fun s _ => (.ok { data := [] }, s)
  httpPost := fun s _ _ _ => (.ok "", s)
  collectionsDelete := fun s _ => (none, s)
  collectionsCreate := fun s _ => (none, s)
  pointsUpsert := fun s _ => (none, s)
  pointsSearch := fun s _ =>
    if s < n then (.error ⟨"Not found: Collection test_collection does not exist"⟩, s + 1)
    else (.ok { result := [] }, s + 1)

/-- The in-memory collaborators with a store that cannot be reached: every backend search
fails with a transport error. -/
def downEnv : Env (List String) :=
  { memEnv with
    pointsSearch := fun s _ =>
      (.error ⟨"rpc error: code = Unavailable desc = connection refused"⟩, s) }

/-- The in-memory collaborators with an OpenAI provider whose response carries no
embedding. -/
def emptyOpenAIEnv : Env (List String) :=
  { memEnv with openaiCreateEmbeddings := fun s _ => (.ok { data := [] }, s) }

/-- The in-memory collaborators with local providers that answer with a three-element
vector. -/
def shortEmbeddingEnv : Env (List String) :=
  { memEnv with jsonUnmarshalFloats := fun _ _ => .ok [⟨0⟩, ⟨0⟩, ⟨0⟩] }

/-- Collaborators whose state is the list of the points stored so far, each with its
collection: an upsert appends its points and succeeds.  The decoder yields the given
`/add` body and the local providers answer with `sampleVector`. -/
def pointStoreEnv (req : addRequest) : Env (List (String × pb.PointStruct)) where
  jsonDecodeAdd := fun _ => .ok req
  jsonDecodeDelete := memEnv.jsonDecodeDelete
  jsonUnmarshalFloats := fun _ _ => .ok sampleVector
  toFloat32 := memEnv.toFloat32
  uuidNew := fun s => ("6ba7b810-9dad-41d1-80b4-00c04fd430c8", s)
  openaiCreateEmbeddings := fun s _ => (.ok { data := [] }, s)
  httpPost := fun s _ _ _ => (.ok "", s)
  collectionsDelete := fun s _ => (none, s)
  collectionsCreate := fun s _ => (none, s)
  pointsUpsert := fun s req => (none, s ++ req.points.map (fun p => (req.collectionName, p)))
  pointsSearch := fun s _ => (.ok { result := [] }, s)

/-- Collaborators like `missEnv`, but every backend search reports `Not found`. -/
def alwaysMissEnv : Env Nat :=
  { missEnv 0 with
    pointsSearch := fun s _ =>
      (.error ⟨"Not found: Collection test_collection does not exist"⟩, s + 1) }

/-! ## Basic facts -/

theorem startsWith_iff (s sub : List Char) : startsWith s sub = true ↔ sub <+: s := by
  induction s generalizing sub with
  | nil => cases sub <;> simp [startsWith]
  | cons c cs ih =>
    cases sub with
    | nil => simp [startsWith]
    | cons d ds =>
      simp only [startsWith, Bool.and_eq_true, beq_iff_eq, ih, List.cons_prefix_cons]
      constructor
      · rintro ⟨h1, h2⟩
        exact ⟨h1.symm, h2⟩
      · rintro ⟨h1, h2⟩
        exact ⟨h1.symm, h2⟩

/-- The embedding of `strings.Contains` decides whether the second string is a contiguous
block of the first. -/
theorem containsChars_iff (s sub : List Char) : containsChars s sub = true ↔ sub <:+: s := by
  induction s with
  | nil =>
    simp only [containsChars, startsWith_iff, List.prefix_nil, List.infix_nil]
  | cons c cs ih =>
    simp only [containsChars, Bool.or_eq_true, startsWith_iff, ih, List.infix_cons_iff]

theorem sampleVector_length : sampleVector.length = vectorSize := by
  unfold sampleVector vectorSize
  exact List.length_replicate 1536 _

theorem nil_length_ne_vectorSize : ([] : List Float32).length ≠ vectorSize := by decide

theorem CreateCollection_trace {σ : Type} (qc : QdrantClient) (env : Env σ) (name : String)
    (size : Nat) (s : σ) :
    (qc.CreateCollection env name size s).trace =
      [Event.clientCreateCollection name size,
        Event.collectionsCreate (createRequest name size)
          (env.collectionsCreate s (createRequest name size)).1] := by
  unfold QdrantClient.CreateCollection
  cases h : (env.collectionsCreate s (createRequest name size)).1 with
  | none => simp [h]
  | some e =>
    by_cases hc : stringsContains e.message ErrAlreadyExists = true <;> simp [h, hc]

theorem CreateCollection_st {σ : Type} (qc : QdrantClient) (env : Env σ) (name : String)
    (size : Nat) (s : σ) :
    (qc.CreateCollection env name size s).st =
      (env.collectionsCreate s (createRequest name size)).2 := by
  unfold QdrantClient.CreateCollection
  cases h : (env.collectionsCreate s (createRequest name size)).1 with
  | none => simp [h]
  | some e =>
    by_cases hc : stringsContains e.message ErrAlreadyExists = true <;> simp [h, hc]

theorem CreateCollection_val {σ : Type} (qc : QdrantClient) (env : Env σ) (name : String)
    (size : Nat) (s : σ) :
    (qc.CreateCollection env name size s).val =
      match (env.collectionsCreate s (createRequest name size)).1 with
      | some err => if stringsContains err.message ErrAlreadyExists = true then none else some err
      | none => none := by
  unfold QdrantClient.CreateCollection
  cases h : (env.collectionsCreate s (createRequest name size)).1 with
  | none => simp [h]
  | some e =>
    by_cases hc : stringsContains e.message ErrAlreadyExists = true <;> simp [h, hc]

/-! ## The four ways one step of `Search` can go -/

theorem Search_ok {σ : Type} (qc : QdrantClient) (env : Env σ) (fuel : Nat)
    (vector : List Float32) (s : σ) (rsp : pb.SearchResponse)
    (h : (env.pointsSearch s (qc.searchRequest vector)).1 = .ok rsp) :
    qc.Search env (fuel + 1) vector s =
      ⟨some (rsp.result, none), (env.pointsSearch s (qc.searchRequest vector)).2,
        [Event.clientSearch vector, Event.pointsSearch (qc.searchRequest vector) none]⟩ := by
  simp [QdrantClient.Search, h, errOf]

theorem Search_other_error {σ : Type} (qc : QdrantClient) (env : Env σ) (fuel : Nat)
    (vector : List Float32) (s : σ) (e : GoError)
    (h : (env.pointsSearch s (qc.searchRequest vector)).1 = .error e)
    (hnf : stringsContains e.message ErrNotFound = false) :
    qc.Search env (fuel + 1) vector s =
      ⟨some ([], some e), (env.pointsSearch s (qc.searchRequest vector)).2,
        [Event.clientSearch vector, Event.pointsSearch (qc.searchRequest vector) (some e)]⟩ := by
  simp [QdrantClient.Search, h, errOf, hnf]

theorem Search_miss_create_failed {σ : Type} (qc : QdrantClient) (env : Env σ) (fuel : Nat)
    (vector : List Float32) (s : σ) (e e2 : GoError)
    (h : (env.pointsSearch s (qc.searchRequest vector)).1 = .error e)
    (hnf : stringsContains e.message ErrNotFound = true)
    (hc : (qc.CreateCollection env qc.collection qc.size
      (env.pointsSearch s (qc.searchRequest vector)).2).val = some e2) :
    qc.Search env (fuel + 1) vector s =
      ⟨some ([], some e2),
        (qc.CreateCollection env qc.collection qc.size
          (env.pointsSearch s (qc.searchRequest vector)).2).st,
        [Event.clientSearch vector, Event.pointsSearch (qc.searchRequest vector) (some e)] ++
          (qc.CreateCollection env qc.collection qc.size
            (env.pointsSearch s (qc.searchRequest vector)).2).trace⟩ := by
  simp [QdrantClient.Search, h, errOf, hnf, hc]

theorem Search_miss_retry {σ : Type} (qc : QdrantClient) (env : Env σ) (fuel : Nat)
    (vector : List Float32) (s : σ) (e : GoError)
    (h : (env.pointsSearch s (qc.searchRequest vector)).1 = .error e)
    (hnf : stringsContains e.message ErrNotFound = true)
    (hc : (qc.CreateCollection env qc.collection qc.size
      (env.pointsSearch s (qc.searchRequest vector)).2).val = none) :
    qc.Search env (fuel + 1) vector s =
      ⟨(qc.Search env fuel vector
          (qc.CreateCollection env qc.collection qc.size
            (env.pointsSearch s (qc.searchRequest vector)).2).st).val,
        (qc.Search env fuel vector
          (qc.CreateCollection env qc.collection qc.size
            (env.pointsSearch s (qc.searchRequest vector)).2).st).st,
        [Event.clientSearch vector, Event.pointsSearch (qc.searchRequest vector) (some e)] ++
          ((qc.CreateCollection env qc.collection qc.size
            (env.pointsSearch s (qc.searchRequest vector)).2).trace ++
            (qc.Search env fuel vector
              (qc.CreateCollection env qc.collection qc.size
                (env.pointsSearch s (qc.searchRequest vector)).2).st).trace)⟩ := by
  simp [QdrantClient.Search, h, errOf, hnf, hc]

/-- Case analysis on one step of `Search`. -/
theorem Search_cases {σ : Type} (qc : QdrantClient) (env : Env σ) (vector : List Float32)
    (s : σ) :
    (∃ rsp, (env.pointsSearch s (qc.searchRequest vector)).1 = .ok rsp) ∨
      (∃ e, (env.pointsSearch s (qc.searchRequest vector)).1 = .error e ∧
        stringsContains e.message ErrNotFound = false) ∨
      (∃ e e2, (env.pointsSearch s (qc.searchRequest vector)).1 = .error e ∧
        stringsContains e.message ErrNotFound = true ∧
        (qc.CreateCollection env qc.collection qc.size
          (env.pointsSearch s (qc.searchRequest vector)).2).val = some e2) ∨
      (∃ e, (env.pointsSearch s (qc.searchRequest vector)).1 = .error e ∧
        stringsContains e.message ErrNotFound = true ∧
        (qc.CreateCollection env qc.collection qc.size
          (env.pointsSearch s (qc.searchRequest vector)).2).val = none) := by
  cases h : (env.pointsSearch s (qc.searchRequest vector)).1 with
  | ok rsp => exact Or.inl ⟨rsp, rfl⟩
  | error e =>
    cases hnf : stringsContains e.message ErrNotFound with
    | false => exact Or.inr (Or.inl ⟨e, rfl, hnf⟩)
    | true =>
      cases hc : (qc.CreateCollection env qc.collection qc.size
          (env.pointsSearch s (qc.searchRequest vector)).2).val with
      | some e2 => exact Or.inr (Or.inr (Or.inl ⟨e, e2, rfl, hnf, rfl⟩))
      | none => exact Or.inr (Or.inr (Or.inr ⟨e, rfl, hnf, rfl⟩))

/-- A `Search` run of positive depth starts with the entry into `Search` and a backend
search. -/
theorem Search_trace_head {σ : Type} (qc : QdrantClient) (env : Env σ) (fuel : Nat)
    (vector : List Float32) (s : σ) :
    ∃ rest, (qc.Search env (fuel + 1) vector s).trace =
      Event.clientSearch vector ::
        Event.pointsSearch (qc.searchRequest vector)
          (errOf (env.pointsSearch s (qc.searchRequest vector)).1) :: rest := by
  rcases Search_cases qc env vector s with ⟨rsp, h⟩ | ⟨e, h, hnf⟩ | ⟨e, e2, h, hnf, hc⟩ |
    ⟨e, h, hnf, hc⟩
  · rw [Search_ok qc env fuel vector s rsp h, h]
    exact ⟨[], rfl⟩
  · rw [Search_other_error qc env fuel vector s e h hnf, h]
    exact ⟨[], rfl⟩
  · rw [Search_miss_create_failed qc env fuel vector s e e2 h hnf hc, h]
    exact ⟨_, rfl⟩
  · rw [Search_miss_retry qc env fuel vector s e h hnf hc, h]
    exact ⟨_, rfl⟩

/-- Every event of a `Search` run is one of the four calls of its loop, made with the
query vector and the client's configuration. -/
theorem Search_trace_events {σ : Type} (qc : QdrantClient) (env : Env σ)
    (vector : List Float32) (fuel : Nat) (s : σ) :
    ∀ ev ∈ (qc.Search env fuel vector s).trace,
      ev = Event.clientSearch vector ∨
        (∃ err, ev = Event.pointsSearch (qc.searchRequest vector) err) ∨
        ev = Event.clientCreateCollection qc.collection qc.size ∨
        ∃ err, ev = Event.collectionsCreate (createRequest qc.collection qc.size) err := by
  induction fuel generalizing s with
  | zero => intro ev hev; simp [QdrantClient.Search] at hev
  | succ fuel ih =>
    intro ev hev
    rcases Search_cases qc env vector s with ⟨rsp, h⟩ | ⟨e, h, hnf⟩ | ⟨e, e2, h, hnf, hc⟩ |
      ⟨e, h, hnf, hc⟩
    · rw [Search_ok qc env fuel vector s rsp h] at hev
      simp only [List.mem_cons, List.mem_singleton, List.not_mem_nil, or_false] at hev
      rcases hev with rfl | rfl
      · exact Or.inl rfl
      · exact Or.inr (Or.inl ⟨_, rfl⟩)
    · rw [Search_other_error qc env fuel vector s e h hnf] at hev
      simp only [List.mem_cons, List.mem_singleton, List.not_mem_nil, or_false] at hev
      rcases hev with rfl | rfl
      · exact Or.inl rfl
      · exact Or.inr (Or.inl ⟨_, rfl⟩)
    · rw [Search_miss_create_failed qc env fuel vector s e e2 h hnf hc,
        CreateCollection_trace] at hev
      simp only [List.cons_append, List.nil_append, List.mem_cons, List.not_mem_nil,
        or_false] at hev
      rcases hev with rfl | rfl | rfl | rfl
      · exact Or.inl rfl
      · exact Or.inr (Or.inl ⟨_, rfl⟩)
      · exact Or.inr (Or.inr (Or.inl rfl))
      · exact Or.inr (Or.inr (Or.inr ⟨_, rfl⟩))
    · rw [Search_miss_retry qc env fuel vector s e h hnf hc, CreateCollection_trace] at hev
      simp only [List.cons_append, List.nil_append, List.mem_cons] at hev
      rcases hev with rfl | rfl | rfl | rfl | hev
      · exact Or.inl rfl
      · exact Or.inr (Or.inl ⟨_, rfl⟩)
      · exact Or.inr (Or.inr (Or.inl rfl))
      · exact Or.inr (Or.inr (Or.inr ⟨_, rfl⟩))
      · exact ih _ ev hev

theorem CreateCollection_val_some {σ : Type} (qc : QdrantClient) (env : Env σ)
    (name : String) (size : Nat) (s : σ) (e : GoError)
    (h : (qc.CreateCollection env name size s).val = some e) :
    (env.collectionsCreate s (createRequest name size)).1 = some e := by
  rw [CreateCollection_val] at h
  cases hr : (env.collectionsCreate s (createRequest name size)).1 with
  | none => rw [hr] at h; simp at h
  | some e2 =>
    rw [hr] at h
    by_cases hx : stringsContains e2.message ErrAlreadyExists = true
    · simp [hx] at h
    · simp [hx] at h
      rw [h]

/-- Call counts of a `Search` run: one create call per missed search, at most one search
more than misses, and never more searches than the recursion budget. -/
theorem Search_call_counts {σ : Type} (qc : QdrantClient) (env : Env σ)
    (vector : List Float32) (fuel : Nat) (s : σ) :
    numCreateCalls (qc.Search env fuel vector s).trace =
        numMissedSearches (qc.Search env fuel vector s).trace ∧
      numMissedSearches (qc.Search env fuel vector s).trace ≤
        numSearchCalls (qc.Search env fuel vector s).trace ∧
      numSearchCalls (qc.Search env fuel vector s).trace ≤
        numMissedSearches (qc.Search env fuel vector s).trace + 1 ∧
      numSearchCalls (qc.Search env fuel vector s).trace ≤ fuel := by
  induction fuel generalizing s with
  | zero => simp [QdrantClient.Search, numCreateCalls, numMissedSearches, numSearchCalls]
  | succ fuel ih =>
    rcases Search_cases qc env vector s with ⟨rsp, h⟩ | ⟨e, h, hnf⟩ | ⟨e, e2, h, hnf, hc⟩ |
      ⟨e, h, hnf, hc⟩
    · rw [Search_ok qc env fuel vector s rsp h]
      simp [numCreateCalls, numMissedSearches, numSearchCalls, Event.isCollectionsCreate,
        Event.isMissedSearch, Event.isPointsSearch]
    · rw [Search_other_error qc env fuel vector s e h hnf]
      simp [numCreateCalls, numMissedSearches, numSearchCalls, Event.isCollectionsCreate,
        Event.isMissedSearch, Event.isPointsSearch, hnf]
    · rw [Search_miss_create_failed qc env fuel vector s e e2 h hnf hc,
        CreateCollection_trace]
      simp [numCreateCalls, numMissedSearches, numSearchCalls, Event.isCollectionsCreate,
        Event.isMissedSearch, Event.isPointsSearch, hnf]
    · rw [Search_miss_retry qc env fuel vector s e h hnf hc, CreateCollection_trace]
      have ih2 := ih (qc.CreateCollection env qc.collection qc.size
        (env.pointsSearch s (qc.searchRequest vector)).2).st
      simp only [numCreateCalls, numMissedSearches, numSearchCalls] at ih2 ⊢
      simp only [List.cons_append, List.nil_append, List.countP_cons,
        Event.isCollectionsCreate, Event.isMissedSearch, Event.isPointsSearch, hnf]
      simp only [Bool.false_eq_true, if_false, if_true]
      omega

/-- Where the error returned by `Search` comes from: it is the answer of the last backend
call of the run, which is a create-collection call or a search call whose error does not
contain "Not found". -/
theorem Search_error_origin {σ : Type} (qc : QdrantClient) (env : Env σ)
    (vector : List Float32) (fuel : Nat) (s : σ) (res : List pb.ScoredPoint) (e : GoError)
    (hret : (qc.Search env fuel vector s).val = some (res, some e)) :
    (∃ pre, (qc.Search env fuel vector s).trace =
        pre ++ [Event.collectionsCreate (createRequest qc.collection qc.size) (some e)]) ∨
      ((∃ pre, (qc.Search env fuel vector s).trace =
        pre ++ [Event.pointsSearch (qc.searchRequest vector) (some e)]) ∧
        stringsContains e.message ErrNotFound = false) := by
  induction fuel generalizing s with
  | zero => simp [QdrantClient.Search] at hret
  | succ fuel ih =>
    rcases Search_cases qc env vector s with ⟨rsp, h⟩ | ⟨e1, h, hnf⟩ | ⟨e1, e2, h, hnf, hc⟩ |
      ⟨e1, h, hnf, hc⟩
    · rw [Search_ok qc env fuel vector s rsp h] at hret
      simp at hret
    · rw [Search_other_error qc env fuel vector s e1 h hnf] at hret ⊢
      simp only [Option.some.injEq, Prod.mk.injEq] at hret
      obtain ⟨-, rfl⟩ := hret
      exact Or.inr ⟨⟨[Event.clientSearch vector], rfl⟩, hnf⟩
    · rw [Search_miss_create_failed qc env fuel vector s e1 e2 h hnf hc] at hret ⊢
      simp only [Option.some.injEq, Prod.mk.injEq] at hret
      obtain ⟨-, rfl⟩ := hret
      rw [CreateCollection_trace, CreateCollection_val_some qc env _ _ _ e2 hc]
      exact Or.inl ⟨[Event.clientSearch vector,
        Event.pointsSearch (qc.searchRequest vector) (some e1),
        Event.clientCreateCollection qc.collection qc.size], rfl⟩
    · rw [Search_miss_retry qc env fuel vector s e1 h hnf hc] at hret ⊢
      rcases ih _ hret with ⟨pre, hp⟩ | ⟨⟨pre, hp⟩, hx⟩
      · refine Or.inl ⟨[Event.clientSearch vector,
          Event.pointsSearch (qc.searchRequest vector) (some e1)] ++
          ((qc.CreateCollection env qc.collection qc.size
            (env.pointsSearch s (qc.searchRequest vector)).2).trace ++ pre), ?_⟩
        simp only [hp, List.append_assoc]
      · refine Or.inr ⟨⟨[Event.clientSearch vector,
          Event.pointsSearch (qc.searchRequest vector) (some e1)] ++
          ((qc.CreateCollection env qc.collection qc.size
            (env.pointsSearch s (qc.searchRequest vector)).2).trace ++ pre), ?_⟩, hx⟩
        simp only [hp, List.append_assoc]

/-- A `Search` run that returned within some recursion budget returns the same with any
larger budget. -/
theorem Search_fuel_mono {σ : Type} (qc : QdrantClient) (env : Env σ)
    (vector : List Float32) (fuel : Nat) (s : σ)
    (hret : (qc.Search env fuel vector s).val ≠ none) (k : Nat) :
    qc.Search env (fuel + k) vector s = qc.Search env fuel vector s := by
  induction fuel generalizing s with
  | zero => simp [QdrantClient.Search] at hret
  | succ fuel ih =>
    have hk : fuel + 1 + k = (fuel + k) + 1 := by omega
    rw [hk]
    rcases Search_cases qc env vector s with ⟨rsp, h⟩ | ⟨e1, h, hnf⟩ | ⟨e1, e2, h, hnf, hc⟩ |
      ⟨e1, h, hnf, hc⟩
    · rw [Search_ok qc env _ vector s rsp h, Search_ok qc env _ vector s rsp h]
    · rw [Search_other_error qc env _ vector s e1 h hnf,
        Search_other_error qc env _ vector s e1 h hnf]
    · rw [Search_miss_create_failed qc env _ vector s e1 e2 h hnf hc,
        Search_miss_create_failed qc env _ vector s e1 e2 h hnf hc]
    · rw [Search_miss_retry qc env fuel vector s e1 h hnf hc] at hret
      rw [Search_miss_retry qc env _ vector s e1 h hnf hc,
        Search_miss_retry qc env _ vector s e1 h hnf hc, ih _ hret]

theorem missEnv_message_contains :
    stringsContains "Not found: Collection test_collection does not exist" ErrNotFound =
      true := by decide

/-- On a backend whose first `n` searches miss, a `Search` started after `k` searches
returns the empty result after `n - k + 1` searches and `n - k` create calls. -/
theorem Search_missEnv (qc : QdrantClient) (vector : List Float32) (n d : Nat) :
    ∀ k, k + d = n →
      (qc.Search (missEnv n) (d + 1) vector k).val = some ([], none) ∧
        numSearchCalls (qc.Search (missEnv n) (d + 1) vector k).trace = d + 1 ∧
        numCreateCalls (qc.Search (missEnv n) (d + 1) vector k).trace = d := by
  induction d with
  | zero =>
    intro k hk
    have h : ((missEnv n).pointsSearch k (qc.searchRequest vector)).1 = .ok { result := [] } := by
      have : ¬ k < n := by omega
      simp [missEnv, this]
    rw [Search_ok qc (missEnv n) 0 vector k _ h]
    simp [numSearchCalls, numCreateCalls, Event.isPointsSearch, Event.isCollectionsCreate]
  | succ d ih =>
    intro k hk
    have hlt : k < n := by omega
    have h : ((missEnv n).pointsSearch k (qc.searchRequest vector)).1 =
        .error ⟨"Not found: Collection test_collection does not exist"⟩ := by
      simp [missEnv, hlt]
    have hs : ((missEnv n).pointsSearch k (qc.searchRequest vector)).2 = k + 1 := by
      simp [missEnv, hlt]
    have hc : (qc.CreateCollection (missEnv n) qc.collection qc.size
        ((missEnv n).pointsSearch k (qc.searchRequest vector)).2).val = none := by
      rw [CreateCollection_val]
      simp [missEnv]
    have hst : (qc.CreateCollection (missEnv n) qc.collection qc.size
        ((missEnv n).pointsSearch k (qc.searchRequest vector)).2).st = k + 1 := by
      rw [CreateCollection_st, hs]
      simp [missEnv]
    rw [Search_miss_retry qc (missEnv n) (d + 1) vector k _ h missEnv_message_contains hc,
      hst, CreateCollection_trace]
    obtain ⟨h1, h2, h3⟩ := ih (k + 1) (by omega)
    refine ⟨h1, ?_, ?_⟩
    · simp only [numSearchCalls] at h2 ⊢
      simp only [List.cons_append, List.nil_append, List.countP_cons, Event.isPointsSearch,
        h2]
      simp
    · simp only [numCreateCalls] at h3 ⊢
      simp only [List.cons_append, List.nil_append, List.countP_cons,
        Event.isCollectionsCreate, h3]
      simp

/-- A backend that keeps missing: from every state satisfying `P`, the search reports an
error containing "Not found", the creation that follows succeeds, and `P` holds again.
Then `Search` started in such a state never returns: whatever depth is available, it is
used up, with one search and one create call per level. -/
theorem Search_never_returns {σ : Type} (qc : QdrantClient) (env : Env σ)
    (vector : List Float32) (P : σ → Prop)
    (hstep : ∀ t, P t →
      (∃ e, (env.pointsSearch t (qc.searchRequest vector)).1 = .error e ∧
        stringsContains e.message ErrNotFound = true) ∧
      (qc.CreateCollection env qc.collection qc.size
        (env.pointsSearch t (qc.searchRequest vector)).2).val = none ∧
      P (qc.CreateCollection env qc.collection qc.size
        (env.pointsSearch t (qc.searchRequest vector)).2).st)
    (fuel : Nat) :
    ∀ s, P s → (qc.Search env fuel vector s).val = none ∧
      numSearchCalls (qc.Search env fuel vector s).trace = fuel ∧
      numCreateCalls (qc.Search env fuel vector s).trace = fuel := by
  induction fuel with
  | zero => intro s _; simp [QdrantClient.Search, numSearchCalls, numCreateCalls]
  | succ fuel ih =>
    intro s hs
    obtain ⟨⟨e, h, hnf⟩, hc, hP⟩ := hstep s hs
    rw [Search_miss_retry qc env fuel vector s e h hnf hc, CreateCollection_trace]
    obtain ⟨h1, h2, h3⟩ := ih _ hP
    refine ⟨h1, ?_, ?_⟩
    · simp only [numSearchCalls] at h2 ⊢
      simp only [List.cons_append, List.nil_append, List.countP_cons, Event.isPointsSearch,
        h2]
      simp
    · simp only [numCreateCalls] at h3 ⊢
      simp only [List.cons_append, List.nil_append, List.countP_cons,
        Event.isCollectionsCreate, h3]
      simp

/-- On a backend that reports "Not found" to every search while creation succeeds, `Search`
uses up every recursion budget: it makes as many searches and create calls as the budget
allows and never returns. -/
theorem Search_alwaysMissEnv (qc : QdrantClient) (vector : List Float32) (fuel : Nat) :
    ∀ s, (qc.Search alwaysMissEnv fuel vector s).val = none ∧
      numSearchCalls (qc.Search alwaysMissEnv fuel vector s).trace = fuel ∧
      numCreateCalls (qc.Search alwaysMissEnv fuel vector s).trace = fuel := by
  induction fuel with
  | zero => intro s; simp [QdrantClient.Search, numSearchCalls, numCreateCalls]
  | succ fuel ih =>
    intro s
    have h : (alwaysMissEnv.pointsSearch s (qc.searchRequest vector)).1 =
        .error ⟨"Not found: Collection test_collection does not exist"⟩ := by
      simp [alwaysMissEnv]
    have hc : (qc.CreateCollection alwaysMissEnv qc.collection qc.size
        (alwaysMissEnv.pointsSearch s (qc.searchRequest vector)).2).val = none := by
      rw [CreateCollection_val]
      simp [alwaysMissEnv, missEnv]
    rw [Search_miss_retry qc alwaysMissEnv fuel vector s _ h missEnv_message_contains hc,
      CreateCollection_trace]
    obtain ⟨h1, h2, h3⟩ := ih (qc.CreateCollection alwaysMissEnv qc.collection qc.size
      (alwaysMissEnv.pointsSearch s (qc.searchRequest vector)).2).st
    refine ⟨h1, ?_, ?_⟩
    · simp only [numSearchCalls] at h2 ⊢
      simp only [List.cons_append, List.nil_append, List.countP_cons, Event.isPointsSearch,
        h2]
      simp
    · simp only [numCreateCalls] at h3 ⊢
      simp only [List.cons_append, List.nil_append, List.countP_cons,
        Event.isCollectionsCreate, h3]
      simp

/-! ## Facts about the embedding providers and the handlers -/

theorem getOpenAIEmbedding_trace {σ : Type} (env : Env σ) (text : String) (s : σ) :
    (getOpenAIEmbedding env text s).trace =
      [Event.openaiCreateEmbeddings { input := [text], model := openai.AdaEmbeddingV2 }] := by
  unfold getOpenAIEmbedding
  cases h : (env.openaiCreateEmbeddings s
      { input := [text], model := openai.AdaEmbeddingV2 }).1 with
  | error e => simp [h]
  | ok resp =>
    cases hd : resp.data with
    | nil => simp [h, hd]
    | cons d ds => simp [h, hd]

theorem getOllamaEmbedding_trace {σ : Type} (env : Env σ) (text : String) (s : σ) :
    (getOllamaEmbedding env text s).trace =
      [Event.httpPost ollamaURL "application/json"
        [("model", "nomic-embed-text"), ("prompt", text)]] := by
  unfold getOllamaEmbedding
  cases h : (env.httpPost s ollamaURL "application/json"
      [("model", "nomic-embed-text"), ("prompt", text)]).1 with
  | error e => simp [h]
  | ok data =>
    cases hd : env.jsonUnmarshalFloats "embedding" data with
    | error e => simp [h, hd]
    | ok v => simp [h, hd]

theorem getLocalEmbedding_trace {σ : Type} (env : Env σ) (text : String) (s : σ) :
    (getLocalEmbedding env text s).trace =
      [Event.httpPost localEmbedURL "application/json" [("text", text)]] := by
  unfold getLocalEmbedding
  cases h : (env.httpPost s localEmbedURL "application/json" [("text", text)]).1 with
  | error e => simp [h]
  | ok data =>
    cases hd : env.jsonUnmarshalFloats "vector" data with
    | error e => simp [h, hd]
    | ok v => simp [h, hd]

/-- Whatever the source, `getEmbedding` only talks to embedding providers. -/
theorem getEmbedding_trace_embedding {σ : Type} (env : Env σ) (src text : String) (s : σ) :
    ∀ ev ∈ (getEmbedding env src text s).trace, ev.isEmbedding = true := by
  intro ev hev
  unfold getEmbedding at hev
  split_ifs at hev
  · simp only [getOpenAIEmbedding_trace, List.mem_cons, List.mem_singleton,
      List.not_mem_nil, or_false] at hev
    rcases hev with rfl | rfl <;> rfl
  · simp only [getOllamaEmbedding_trace, List.mem_cons, List.mem_singleton,
      List.not_mem_nil, or_false] at hev
    rcases hev with rfl | rfl <;> rfl
  · simp only [getLocalEmbedding_trace, List.mem_cons, List.mem_singleton,
      List.not_mem_nil, or_false] at hev
    rcases hev with rfl | rfl <;> rfl
  · simp only [List.mem_singleton] at hev
    rw [hev]
    rfl

theorem isEmbedding_not_store (ev : Event) (h : ev.isEmbedding = true) :
    ev.isStore = false ∧ ev.vectorsSized = true := by
  cases ev <;> simp [Event.isEmbedding] at h <;> simp [Event.isStore, Event.vectorsSized]

/-- An unknown embedding source: `getEmbedding` returns the nil vector and a nil error and
calls no provider. -/
theorem getEmbedding_unknown_source {σ : Type} (env : Env σ) (src text : String) (s : σ)
    (h1 : src ≠ embeddingOpenAI) (h2 : src ≠ embeddingOllama) (h3 : src ≠ embeddingLocal) :
    getEmbedding env src text s = ⟨([], none), s, [Event.getEmbedding text]⟩ := by
  simp [getEmbedding, h1, h2, h3]

theorem searchHandler_missing_term {σ : Type} (env : Env σ) (src : String)
    (client : QdrantClient) (fuel : Nat) (r : Request) (s : σ)
    (h : queryGet r.query "term" = "") :
    searchHandler env src client fuel r s =
      ⟨some (httpError "Missing search term" 400), s, []⟩ := by
  simp [searchHandler, h]

theorem searchHandler_embedding_error {σ : Type} (env : Env σ) (src : String)
    (client : QdrantClient) (fuel : Nat) (r : Request) (s : σ) (err : GoError)
    (h : queryGet r.query "term" ≠ "")
    (he : (getEmbedding env src (queryGet r.query "term") s).val.2 = some err) :
    searchHandler env src client fuel r s =
      ⟨some (httpError ("Embedding error: " ++ err.message) 500),
        (getEmbedding env src (queryGet r.query "term") s).st,
        (getEmbedding env src (queryGet r.query "term") s).trace⟩ := by
  simp [searchHandler, h, he]

theorem searchHandler_size_mismatch {σ : Type} (env : Env σ) (src : String)
    (client : QdrantClient) (fuel : Nat) (r : Request) (s : σ)
    (h : queryGet r.query "term" ≠ "")
    (he : (getEmbedding env src (queryGet r.query "term") s).val.2 = none)
    (hl : (getEmbedding env src (queryGet r.query "term") s).val.1.length ≠ vectorSize) :
    searchHandler env src client fuel r s =
      ⟨some (httpError "Embedding size mismatch" 500),
        (getEmbedding env src (queryGet r.query "term") s).st,
        (getEmbedding env src (queryGet r.query "term") s).trace⟩ := by
  simp [searchHandler, h, he, hl]

theorem searchHandler_search_trace {σ : Type} (env : Env σ) (src : String)
    (client : QdrantClient) (fuel : Nat) (r : Request) (s : σ)
    (h : queryGet r.query "term" ≠ "")
    (he : (getEmbedding env src (queryGet r.query "term") s).val.2 = none)
    (hl : (getEmbedding env src (queryGet r.query "term") s).val.1.length = vectorSize) :
    (searchHandler env src client fuel r s).trace =
      (getEmbedding env src (queryGet r.query "term") s).trace ++
        (client.Search env fuel (getEmbedding env src (queryGet r.query "term") s).val.1
          (getEmbedding env src (queryGet r.query "term") s).st).trace := by
  simp only [searchHandler, h, he, hl, if_false, ne_eq, not_true_eq_false]
  split <;> rfl

theorem addHandler_wrong_method {σ : Type} (env : Env σ) (src : String)
    (client : QdrantClient) (r : Request) (s : σ) (h : r.method ≠ "POST") :
    addHandler env src client r s = ⟨httpError "Method not allowed" 405, s, []⟩ := by
  simp [addHandler, h]

theorem addHandler_bad_body {σ : Type} (env : Env σ) (src : String)
    (client : QdrantClient) (r : Request) (s : σ) (e : GoError) (h : r.method = "POST")
    (hd : env.jsonDecodeAdd r.body = .error e) :
    addHandler env src client r s = ⟨httpError "Invalid request" 400, s, []⟩ := by
  simp [addHandler, h, hd]

/-- The `/add` handler on a body whose vector has `vectorSize` elements. -/
theorem addHandler_vector {σ : Type} (env : Env σ) (src : String)
    (client : QdrantClient) (r : Request) (s : σ) (req : addRequest) (h : r.method = "POST")
    (hd : env.jsonDecodeAdd r.body = .ok req) (hl : req.vector.length = vectorSize) :
    addHandler env src client r s =
      ⟨match (client.CreatePoint env (env.uuidNew s).1 collection req.vector req.payload
            (env.uuidNew s).2).val with
        | some err => httpError ("Failed to add vector: " ++ err.message) 500
        | none =>
          { status := 200,
            body := Body.jsonMap [("id", (env.uuidNew s).1), ("status", "ok")] },
        (client.CreatePoint env (env.uuidNew s).1 collection req.vector req.payload
          (env.uuidNew s).2).st,
        (client.CreatePoint env (env.uuidNew s).1 collection req.vector req.payload
          (env.uuidNew s).2).trace⟩ := by
  simp only [addHandler, h, hd, hl, if_true, ne_eq, not_true_eq_false, if_false,
    List.nil_append]
  split <;> simp_all

theorem addHandler_missing {σ : Type} (env : Env σ) (src : String)
    (client : QdrantClient) (r : Request) (s : σ) (req : addRequest) (h : r.method = "POST")
    (hd : env.jsonDecodeAdd r.body = .ok req) (hl : req.vector.length ≠ vectorSize)
    (ht : req.text = "") :
    addHandler env src client r s = ⟨httpError "Missing vector or text" 400, s, []⟩ := by
  simp [addHandler, h, hd, hl, ht]

theorem addHandler_embedding_error {σ : Type} (env : Env σ) (src : String)
    (client : QdrantClient) (r : Request) (s : σ) (req : addRequest) (err : GoError)
    (h : r.method = "POST") (hd : env.jsonDecodeAdd r.body = .ok req)
    (hl : req.vector.length ≠ vectorSize) (ht : req.text ≠ "")
    (he : (getEmbedding env src req.text s).val.2 = some err) :
    addHandler env src client r s =
      ⟨httpError ("Embedding error: " ++ err.message) 500,
        (getEmbedding env src req.text s).st, (getEmbedding env src req.text s).trace⟩ := by
  simp [addHandler, h, hd, hl, ht, he]

theorem addHandler_size_mismatch {σ : Type} (env : Env σ) (src : String)
    (client : QdrantClient) (r : Request) (s : σ) (req : addRequest)
    (h : r.method = "POST") (hd : env.jsonDecodeAdd r.body = .ok req)
    (hl : req.vector.length ≠ vectorSize) (ht : req.text ≠ "")
    (he : (getEmbedding env src req.text s).val.2 = none)
    (hv : (getEmbedding env src req.text s).val.1.length ≠ vectorSize) :
    addHandler env src client r s =
      ⟨httpError "Embedding size mismatch" 500,
        (getEmbedding env src req.text s).st, (getEmbedding env src req.text s).trace⟩ := by
  simp [addHandler, h, hd, hl, ht, he, hv]

/-- The `/add` handler falling back to the embedding of the text. -/
theorem addHandler_text {σ : Type} (env : Env σ) (src : String)
    (client : QdrantClient) (r : Request) (s : σ) (req : addRequest)
    (h : r.method = "POST") (hd : env.jsonDecodeAdd r.body = .ok req)
    (hl : req.vector.length ≠ vectorSize) (ht : req.text ≠ "")
    (he : (getEmbedding env src req.text s).val.2 = none)
    (hv : (getEmbedding env src req.text s).val.1.length = vectorSize) :
    addHandler env src client r s =
      ⟨match (client.CreatePoint env (env.uuidNew (getEmbedding env src req.text s).st).1
            collection (getEmbedding env src req.text s).val.1 req.payload
            (env.uuidNew (getEmbedding env src req.text s).st).2).val with
        | some err => httpError ("Failed to add vector: " ++ err.message) 500
        | none =>
          { status := 200,
            body := Body.jsonMap
              [("id", (env.uuidNew (getEmbedding env src req.text s).st).1),
                ("status", "ok")] },
        (client.CreatePoint env (env.uuidNew (getEmbedding env src req.text s).st).1
          collection (getEmbedding env src req.text s).val.1 req.payload
          (env.uuidNew (getEmbedding env src req.text s).st).2).st,
        (getEmbedding env src req.text s).trace ++
          (client.CreatePoint env (env.uuidNew (getEmbedding env src req.text s).st).1
            collection (getEmbedding env src req.text s).val.1 req.payload
            (env.uuidNew (getEmbedding env src req.text s).st).2).trace⟩ := by
  simp only [addHandler, h, hd, hl, ht, he, hv, if_true, ne_eq, not_true_eq_false, if_false,
    not_false_eq_true]
  split <;> simp_all

theorem CreatePoint_trace {σ : Type} (qc : QdrantClient) (env : Env σ)
    (uuid coll : String) (vector : List Float32) (payload : List (String × String)) (s : σ) :
    (qc.CreatePoint env uuid coll vector payload s).trace =
      [Event.clientCreatePoint uuid coll vector payload,
        Event.pointsUpsert
          { collectionName := coll,
            points := [{ id := uuid, vectors := vector, payload := toPayload payload }],
            wait := some true }
          (env.pointsUpsert s
            { collectionName := coll,
              points := [{ id := uuid, vectors := vector, payload := toPayload payload }],
              wait := some true }).1] := rfl

/-! ## Claims about the store client -/

/-- C4: `CreateCollection` returns nil exactly when the backend's create call succeeded or
failed with a message containing "already exists"; every other backend error is returned
unchanged; and when the call is made twice in a row with the same name, the first backend
call succeeding (or itself reporting "already exists") and the second reporting "already
exists", both calls return nil. -/
theorem CreateCollection_already_exists_is_success {σ : Type} (qc : QdrantClient)
    (env : Env σ) (name : String) (size : Nat) (s : σ) :
    ((qc.CreateCollection env name size s).val = none ↔
        ((env.collectionsCreate s (createRequest name size)).1 = none ∨
          ∃ e, (env.collectionsCreate s (createRequest name size)).1 = some e ∧
            stringsContains e.message "already exists" = true)) ∧
      (∀ e, (env.collectionsCreate s (createRequest name size)).1 = some e →
        stringsContains e.message "already exists" = false →
        (qc.CreateCollection env name size s).val = some e) ∧
      (∀ e,
        ((env.collectionsCreate s (createRequest name size)).1 = none ∨
          ∃ e0, (env.collectionsCreate s (createRequest name size)).1 = some e0 ∧
            stringsContains e0.message "already exists" = true) →
        (env.collectionsCreate (qc.CreateCollection env name size s).st
          (createRequest name size)).1 = some e →
        stringsContains e.message "already exists" = true →
        (qc.CreateCollection env name size s).val = none ∧
          (qc.CreateCollection env name size
            (qc.CreateCollection env name size s).st).val = none) := by
  have hc : ErrAlreadyExists = "already exists" := rfl
  refine ⟨?_, ?_, ?_⟩
  · rw [CreateCollection_val]
    cases h : (env.collectionsCreate s (createRequest name size)).1 with
    | none => simp
    | some e =>
      by_cases hx : stringsContains e.message ErrAlreadyExists = true
      · simp [hx, ← hc]
      · simp [hx, ← hc]
  · intro e h hx
    rw [CreateCollection_val, h]
    simp [hc, hx]
  · intro e h1 h2 hx
    refine ⟨?_, ?_⟩
    · rw [CreateCollection_val]
      rcases h1 with h1 | ⟨e0, h1, hx0⟩
      · rw [h1]
      · rw [h1]
        simp [hc, hx0]
    · rw [CreateCollection_val, h2]
      simp [hc, hx]

/-- Creating `test_collection` twice on the in-memory backend: the second backend call
reports "already exists" and both calls return nil. -/
theorem CreateCollection_already_exists_is_success_witness :
    (mainClient.CreateCollection memEnv "test_collection" 1536 []).val = none ∧
      (mainClient.CreateCollection memEnv "test_collection" 1536
        (mainClient.CreateCollection memEnv "test_collection" 1536 []).st).val = none :=
  (CreateCollection_already_exists_is_success mainClient memEnv "test_collection" 1536
    []).2.2 ⟨"Wrong input: Collection test_collection already exists"⟩ (Or.inl (by decide))
    (by decide) (by decide)

/-! ## Claims about `/delete` -/

/-- C9: the `/delete` handler answers 405 without a store call when the method is not POST;
400 without a store call when the body does not decode or `collection` is empty; otherwise
it calls `DeleteCollection` once with the supplied name, `DeleteCollection` returns the
backend's error verbatim, and the answer is 200 with `status: ok` exactly when that error
is nil, else 500 with the error's message. -/
theorem deleteHandler_outcome {σ : Type} (env : Env σ) (client : QdrantClient) (r : Request)
    (s : σ) :
    (r.method ≠ "POST" →
        deleteHandler env client r s = ⟨httpError "Method not allowed" 405, s, []⟩) ∧
      (r.method = "POST" →
        ((∃ e, env.jsonDecodeDelete r.body = .error e) ∨
          env.jsonDecodeDelete r.body = .ok { collection := "" }) →
        deleteHandler env client r s = ⟨httpError "Invalid request" 400, s, []⟩) ∧
      (∀ req, r.method = "POST" → env.jsonDecodeDelete r.body = .ok req →
        req.collection ≠ "" →
        (deleteHandler env client r s).trace =
            [Event.clientDeleteCollection req.collection,
              Event.collectionsDelete { collectionName := req.collection }
                (env.collectionsDelete s { collectionName := req.collection }).1] ∧
          (client.DeleteCollection env req.collection s).val =
            (env.collectionsDelete s { collectionName := req.collection }).1 ∧
          ((deleteHandler env client r s).val =
              { status := 200, body := Body.jsonMap [("status", "ok")] } ↔
            (env.collectionsDelete s { collectionName := req.collection }).1 = none) ∧
          (∀ e, (env.collectionsDelete s { collectionName := req.collection }).1 = some e →
            (deleteHandler env client r s).val =
              httpError ("Failed to delete collection: " ++ e.message) 500)) := by
  refine ⟨?_, ?_, ?_⟩
  · intro hm
    simp [deleteHandler, hm]
  · rintro hm (⟨e, he⟩ | he)
    · simp [deleteHandler, hm, he]
    · simp [deleteHandler, hm, he]
  · intro req hm hd hc
    cases hr : (env.collectionsDelete s { collectionName := req.collection }).1 with
    | none =>
      simp [deleteHandler, hm, hd, hc, QdrantClient.DeleteCollection, hr]
    | some e =>
      simp [deleteHandler, hm, hd, hc, QdrantClient.DeleteCollection, hr, httpError]

/-- Deleting the existing collection `test_collection` on the in-memory backend: one
`DeleteCollection` call and the answer 200 with `status: ok`. -/
theorem deleteHandler_outcome_witness :
    (deleteHandler memEnv mainClient
        ⟨"POST", [], "\x7b\"collection\":\"test_collection\"\x7d"⟩ ["test_collection"]).trace =
        [Event.clientDeleteCollection "test_collection",
          Event.collectionsDelete { collectionName := "test_collection" } none] ∧
      (deleteHandler memEnv mainClient
        ⟨"POST", [], "\x7b\"collection\":\"test_collection\"\x7d"⟩ ["test_collection"]).val =
        { status := 200, body := Body.jsonMap [("status", "ok")] } :=
  have h := (deleteHandler_outcome memEnv mainClient
    ⟨"POST", [], "\x7b\"collection\":\"test_collection\"\x7d"⟩ ["test_collection"]).2.2
    { collection := "test_collection" } (by decide) rfl (by decide)
  ⟨h.1, h.2.2.1.mpr (by decide)⟩

/-- C5: when the backend's search reports an error containing "Not found", `Search` next
calls `CreateCollection` with the client's configured collection name and size; when that
creation succeeds and the following search succeeds, `Search` returns that search's result
list with a nil error; and an error returned by `Search` is never the one of a search that
reported "Not found": it is the answer of the create call or of a search whose error does
not contain "Not found". -/
theorem Search_miss_recovery {σ : Type} (qc : QdrantClient) (env : Env σ)
    (vector : List Float32) (s : σ) (e1 : GoError)
    (hmiss : (env.pointsSearch s (qc.searchRequest vector)).1 = .error e1)
    (hnf : stringsContains e1.message "Not found" = true) :
    (∀ fuel, ∃ rest, (qc.Search env (fuel + 1) vector s).trace =
        Event.clientSearch vector ::
          Event.pointsSearch (qc.searchRequest vector) (some e1) ::
          Event.clientCreateCollection qc.collection qc.size ::
          Event.collectionsCreate (createRequest qc.collection qc.size)
            (env.collectionsCreate (env.pointsSearch s (qc.searchRequest vector)).2
              (createRequest qc.collection qc.size)).1 :: rest) ∧
      (∀ fuel rsp,
        (qc.CreateCollection env qc.collection qc.size
          (env.pointsSearch s (qc.searchRequest vector)).2).val = none →
        (env.pointsSearch
          (qc.CreateCollection env qc.collection qc.size
            (env.pointsSearch s (qc.searchRequest vector)).2).st
          (qc.searchRequest vector)).1 = .ok rsp →
        (qc.Search env (fuel + 2) vector s).val = some (rsp.result, none)) ∧
      (∀ fuel res e, (qc.Search env fuel vector s).val = some (res, some e) →
        (∃ pre, (qc.Search env fuel vector s).trace =
          pre ++ [Event.collectionsCreate (createRequest qc.collection qc.size) (some e)]) ∨
        ((∃ pre, (qc.Search env fuel vector s).trace =
          pre ++ [Event.pointsSearch (qc.searchRequest vector) (some e)]) ∧
          stringsContains e.message "Not found" = false)) := by
  have hnf2 : stringsContains e1.message ErrNotFound = true := hnf
  refine ⟨?_, ?_, ?_⟩
  · intro fuel
    cases hc : (qc.CreateCollection env qc.collection qc.size
        (env.pointsSearch s (qc.searchRequest vector)).2).val with
    | some e2 =>
      rw [Search_miss_create_failed qc env fuel vector s e1 e2 hmiss hnf2 hc,
        CreateCollection_trace]
      exact ⟨[], rfl⟩
    | none =>
      rw [Search_miss_retry qc env fuel vector s e1 hmiss hnf2 hc, CreateCollection_trace]
      exact ⟨_, rfl⟩
  · intro fuel rsp hc hok
    rw [Search_miss_retry qc env (fuel + 1) vector s e1 hmiss hnf2 hc,
      Search_ok qc env fuel vector _ rsp hok]
  · intro fuel res e hret
    exact Search_error_origin qc env vector fuel s res e hret

/-- Searching the in-memory backend before `test_collection` exists: the first search
misses, the collection is created, and the retried search returns the empty result. -/
theorem Search_miss_recovery_witness :
    (mainClient.Search memEnv 2 sampleVector []).val = some ([], none) :=
  (Search_miss_recovery mainClient memEnv sampleVector []
    ⟨"Not found: Collection test_collection does not exist"⟩ rfl (by decide)).2.1 0
    { result := [] } rfl rfl

/-- C6, as stated, fails: on a backend whose first two searches miss, one `Search` makes
three search calls and two create-collection calls before it returns; and on a backend
that keeps reporting "Not found" while creation succeeds, `Search` never returns, whatever
depth of nested calls is available. -/
theorem Search_retry_once_counterexample :
    ((mainClient.Search (missEnv 2) 3 sampleVector 0).val = some ([], none) ∧
        numSearchCalls (mainClient.Search (missEnv 2) 3 sampleVector 0).trace = 3 ∧
        numCreateCalls (mainClient.Search (missEnv 2) 3 sampleVector 0).trace = 2) ∧
      ∀ fuel, (mainClient.Search alwaysMissEnv fuel sampleVector 0).val = none :=
  ⟨Search_missEnv mainClient sampleVector 2 2 0 rfl,
    fun fuel => (Search_alwaysMissEnv mainClient sampleVector fuel 0).1⟩

/-- C6, amended: `Search` retries after every miss, not only once.
* A run makes exactly one create-collection call per search that reported "Not found" and
  at most one search more than that.
* An error that does not contain "Not found" is returned as-is after a single search.
* After a miss, a failed creation ends the run with the creation's error.
* After a miss and a successful creation, `Search` calls itself again from the state the
  creation left, and that nested call starts with another backend search.
* A run that returns does so at every larger depth of nested calls.
* `Search` itself bounds nothing: `n` misses give `n + 1` searches and `n` create calls, at
  depth `n + 1`.
* On every backend that keeps missing while creation succeeds (from the start state on,
  along the states the run goes through), `Search` never returns: whatever depth is
  available, it is used up with one search and one create call per level.  The backend
  `alwaysMissEnv` is one such. -/
theorem Search_retries_after_every_miss {σ : Type} (qc : QdrantClient) (env : Env σ)
    (vector : List Float32) (fuel : Nat) (s : σ) :
    (numCreateCalls (qc.Search env fuel vector s).trace =
        numMissedSearches (qc.Search env fuel vector s).trace ∧
      numSearchCalls (qc.Search env fuel vector s).trace ≤
        numMissedSearches (qc.Search env fuel vector s).trace + 1) ∧
      (∀ e, (env.pointsSearch s (qc.searchRequest vector)).1 = .error e →
        stringsContains e.message "Not found" = false →
        qc.Search env (fuel + 1) vector s =
          ⟨some ([], some e), (env.pointsSearch s (qc.searchRequest vector)).2,
            [Event.clientSearch vector,
              Event.pointsSearch (qc.searchRequest vector) (some e)]⟩) ∧
      (∀ e e2, (env.pointsSearch s (qc.searchRequest vector)).1 = .error e →
        stringsContains e.message "Not found" = true →
        (qc.CreateCollection env qc.collection qc.size
          (env.pointsSearch s (qc.searchRequest vector)).2).val = some e2 →
        qc.Search env (fuel + 1) vector s =
          ⟨some ([], some e2),
            (env.collectionsCreate (env.pointsSearch s (qc.searchRequest vector)).2
              (createRequest qc.collection qc.size)).2,
            [Event.clientSearch vector,
              Event.pointsSearch (qc.searchRequest vector) (some e),
              Event.clientCreateCollection qc.collection qc.size,
              Event.collectionsCreate (createRequest qc.collection qc.size) (some e2)]⟩) ∧
      (∀ e, (env.pointsSearch s (qc.searchRequest vector)).1 = .error e →
        stringsContains e.message "Not found" = true →
        (qc.CreateCollection env qc.collection qc.size
          (env.pointsSearch s (qc.searchRequest vector)).2).val = none →
        qc.Search env (fuel + 1) vector s =
            ⟨(qc.Search env fuel vector
                (env.collectionsCreate (env.pointsSearch s (qc.searchRequest vector)).2
                  (createRequest qc.collection qc.size)).2).val,
              (qc.Search env fuel vector
                (env.collectionsCreate (env.pointsSearch s (qc.searchRequest vector)).2
                  (createRequest qc.collection qc.size)).2).st,
              Event.clientSearch vector ::
                Event.pointsSearch (qc.searchRequest vector) (some e) ::
                Event.clientCreateCollection qc.collection qc.size ::
                Event.collectionsCreate (createRequest qc.collection qc.size)
                  (env.collectionsCreate (env.pointsSearch s (qc.searchRequest vector)).2
                    (createRequest qc.collection qc.size)).1 ::
                (qc.Search env fuel vector
                  (env.collectionsCreate (env.pointsSearch s (qc.searchRequest vector)).2
                    (createRequest qc.collection qc.size)).2).trace⟩ ∧
          ∃ rest, (qc.Search env (fuel + 2) vector s).trace =
            Event.clientSearch vector ::
              Event.pointsSearch (qc.searchRequest vector) (some e) ::
              Event.clientCreateCollection qc.collection qc.size ::
              Event.collectionsCreate (createRequest qc.collection qc.size)
                (env.collectionsCreate (env.pointsSearch s (qc.searchRequest vector)).2
                  (createRequest qc.collection qc.size)).1 ::
              Event.clientSearch vector ::
              Event.pointsSearch (qc.searchRequest vector)
                (errOf (env.pointsSearch
                  (env.collectionsCreate (env.pointsSearch s (qc.searchRequest vector)).2
                    (createRequest qc.collection qc.size)).2
                  (qc.searchRequest vector)).1) :: rest) ∧
      ((qc.Search env fuel vector s).val ≠ none →
        ∀ k, qc.Search env (fuel + k) vector s = qc.Search env fuel vector s) ∧
      (∀ n, (qc.Search (missEnv n) (n + 1) vector 0).val = some ([], none) ∧
        numSearchCalls (qc.Search (missEnv n) (n + 1) vector 0).trace = n + 1 ∧
        numCreateCalls (qc.Search (missEnv n) (n + 1) vector 0).trace = n) ∧
      (∀ P : σ → Prop, P s →
        (∀ t, P t →
          (∃ e, (env.pointsSearch t (qc.searchRequest vector)).1 = .error e ∧
            stringsContains e.message "Not found" = true) ∧
          (qc.CreateCollection env qc.collection qc.size
            (env.pointsSearch t (qc.searchRequest vector)).2).val = none ∧
          P (qc.CreateCollection env qc.collection qc.size
            (env.pointsSearch t (qc.searchRequest vector)).2).st) →
        ∀ k, (qc.Search env k vector s).val = none ∧
          numSearchCalls (qc.Search env k vector s).trace = k ∧
          numCreateCalls (qc.Search env k vector s).trace = k) ∧
      (∀ k t, (qc.Search alwaysMissEnv k vector t).val = none) := by
  refine ⟨?_, ?_, ?_, ?_, ?_, ?_, ?_, ?_⟩
  · have h := Search_call_counts qc env vector fuel s
    exact ⟨h.1, h.2.2.1⟩
  · intro e he hnf
    exact Search_other_error qc env fuel vector s e he hnf
  · intro e e2 he hnf hc
    rw [Search_miss_create_failed qc env fuel vector s e e2 he hnf hc,
      CreateCollection_trace, CreateCollection_st,
      CreateCollection_val_some qc env _ _ _ e2 hc]
    rfl
  · intro e he hnf hc
    refine ⟨?_, ?_⟩
    · rw [Search_miss_retry qc env fuel vector s e he hnf hc, CreateCollection_trace,
        CreateCollection_st]
      rfl
    · rw [Search_miss_retry qc env (fuel + 1) vector s e he hnf hc, CreateCollection_trace,
        CreateCollection_st]
      obtain ⟨rest, hrest⟩ := Search_trace_head qc env fuel vector
        (env.collectionsCreate (env.pointsSearch s (qc.searchRequest vector)).2
          (createRequest qc.collection qc.size)).2
      exact ⟨rest, by rw [hrest]; rfl⟩
  · intro hret k
    exact Search_fuel_mono qc env vector fuel s hret k
  · intro n
    exact Search_missEnv qc vector n n 0 (by omega)
  · intro P hs hstep k
    exact Search_never_returns qc env vector P hstep k s hs
  · intro k t
    exact (Search_alwaysMissEnv qc vector k t).1

/-- A search against an unreachable store: the transport error is returned after one
search call, with no create call and no retry. -/
theorem Search_retries_after_every_miss_witness :
    mainClient.Search downEnv 1 sampleVector [] =
      ⟨some ([], some ⟨"rpc error: code = Unavailable desc = connection refused"⟩), [],
        [Event.clientSearch sampleVector,
          Event.pointsSearch (mainClient.searchRequest sampleVector)
            (some ⟨"rpc error: code = Unavailable desc = connection refused"⟩)]⟩ :=
  (Search_retries_after_every_miss mainClient downEnv sampleVector 0 []).2.1
    ⟨"rpc error: code = Unavailable desc = connection refused"⟩ rfl (by decide)

/-! ## Claims about `/search` and `/add` -/

/-- C1: in every run of the `/add` and `/search` handlers, whatever the embedding source
and the providers do, every vector handed to the store has exactly `vectorSize` elements;
and when the vector obtained from the provider has another length, the handler answers
500 and makes no store call. -/
theorem handlers_store_only_sized_vectors {σ : Type} (env : Env σ) (src : String)
    (client : QdrantClient) (fuel : Nat) (r : Request) (s : σ) :
    (∀ ev ∈ (addHandler env src client r s).trace, ev.vectorsSized = true) ∧
      (∀ ev ∈ (searchHandler env src client fuel r s).trace, ev.vectorsSized = true) ∧
      (queryGet r.query "term" ≠ "" →
        (getEmbedding env src (queryGet r.query "term") s).val.2 = none →
        (getEmbedding env src (queryGet r.query "term") s).val.1.length ≠ vectorSize →
        (searchHandler env src client fuel r s).val =
            some (httpError "Embedding size mismatch" 500) ∧
          ∀ ev ∈ (searchHandler env src client fuel r s).trace, ev.isStore = false) ∧
      (∀ req, r.method = "POST" → env.jsonDecodeAdd r.body = .ok req →
        req.vector.length ≠ vectorSize → req.text ≠ "" →
        (getEmbedding env src req.text s).val.2 = none →
        (getEmbedding env src req.text s).val.1.length ≠ vectorSize →
        (addHandler env src client r s).val = httpError "Embedding size mismatch" 500 ∧
          ∀ ev ∈ (addHandler env src client r s).trace, ev.isStore = false) := by
  have hemb : ∀ text ev, ev ∈ (getEmbedding env src text s).trace →
      ev.isStore = false ∧ ev.vectorsSized = true := fun text ev hev =>
    isEmbedding_not_store ev (getEmbedding_trace_embedding env src text s ev hev)
  refine ⟨?_, ?_, ?_, ?_⟩
  · intro ev hev
    by_cases hm : r.method = "POST"
    · cases hd : env.jsonDecodeAdd r.body with
      | error e =>
        rw [addHandler_bad_body env src client r s e hm hd] at hev
        simp at hev
      | ok req =>
        by_cases hl : req.vector.length = vectorSize
        · rw [addHandler_vector env src client r s req hm hd hl, CreatePoint_trace] at hev
          simp only [List.mem_cons, List.mem_singleton, List.not_mem_nil, or_false] at hev
          rcases hev with rfl | rfl <;> simp [Event.vectorsSized, hl]
        · by_cases ht : req.text = ""
          · rw [addHandler_missing env src client r s req hm hd hl ht] at hev
            simp at hev
          · cases he : (getEmbedding env src req.text s).val.2 with
            | some err =>
              rw [addHandler_embedding_error env src client r s req err hm hd hl ht he] at hev
              exact (hemb _ ev hev).2
            | none =>
              by_cases hv : (getEmbedding env src req.text s).val.1.length = vectorSize
              · rw [addHandler_text env src client r s req hm hd hl ht he hv,
                  CreatePoint_trace] at hev
                simp only [List.mem_append, List.mem_cons, List.mem_singleton,
                  List.not_mem_nil, or_false] at hev
                rcases hev with hev | rfl | rfl
                · exact (hemb _ ev hev).2
                · simp [Event.vectorsSized, hv]
                · simp [Event.vectorsSized, hv]
              · rw [addHandler_size_mismatch env src client r s req hm hd hl ht he hv] at hev
                exact (hemb _ ev hev).2
    · rw [addHandler_wrong_method env src client r s hm] at hev
      simp at hev
  · intro ev hev
    by_cases ht : queryGet r.query "term" = ""
    · rw [searchHandler_missing_term env src client fuel r s ht] at hev
      simp at hev
    · cases he : (getEmbedding env src (queryGet r.query "term") s).val.2 with
      | some err =>
        rw [searchHandler_embedding_error env src client fuel r s err ht he] at hev
        exact (hemb _ ev hev).2
      | none =>
        by_cases hv :
            (getEmbedding env src (queryGet r.query "term") s).val.1.length = vectorSize
        · rw [searchHandler_search_trace env src client fuel r s ht he hv] at hev
          rcases List.mem_append.mp hev with hev | hev
          · exact (hemb _ ev hev).2
          · rcases Search_trace_events client env _ fuel _ ev hev with
              rfl | ⟨err, rfl⟩ | rfl | ⟨err, rfl⟩
            · simp [Event.vectorsSized, hv]
            · simp [Event.vectorsSized, QdrantClient.searchRequest, hv]
            · rfl
            · rfl
        · rw [searchHandler_size_mismatch env src client fuel r s ht he hv] at hev
          exact (hemb _ ev hev).2
  · intro ht he hv
    rw [searchHandler_size_mismatch env src client fuel r s ht he hv]
    exact ⟨rfl, fun ev hev => (hemb _ ev hev).1⟩
  · intro req hm hd hl ht he hv
    rw [addHandler_size_mismatch env src client r s req hm hd hl ht he hv]
    exact ⟨rfl, fun ev hev => (hemb _ ev hev).1⟩

/-- A search whose provider answers with a three-element vector: 500 and no store call. -/
theorem handlers_store_only_sized_vectors_witness :
    (searchHandler shortEmbeddingEnv "ollama" mainClient 1
        ⟨"GET", [("term", "hello")], ""⟩ []).val =
        some (httpError "Embedding size mismatch" 500) ∧
      ∀ ev ∈ (searchHandler shortEmbeddingEnv "ollama" mainClient 1
        ⟨"GET", [("term", "hello")], ""⟩ []).trace, ev.isStore = false :=
  (handlers_store_only_sized_vectors shortEmbeddingEnv "ollama" mainClient 1
    ⟨"GET", [("term", "hello")], ""⟩ []).2.2.1 (by decide) (by decide) (by decide)

/-- C2: a POST to `/add` whose body decodes to a vector of exactly `vectorSize` elements,
whatever its text and whatever the embedding source, runs exactly one `CreatePoint`: one
upsert, into `collection`, of one point that carries that very vector.  The state of the
collaborators afterwards is the one this upsert leaves, the answer is 200 with the new id
when the upsert returns no error and 500 with its message otherwise, and no call of
`getEmbedding` or of a provider is made. -/
theorem addHandler_explicit_vector_wins {σ : Type} (env : Env σ) (src : String)
    (client : QdrantClient) (r : Request) (s : σ) (req : addRequest)
    (hm : r.method = "POST") (hd : env.jsonDecodeAdd r.body = .ok req)
    (hl : req.vector.length = vectorSize) :
    addHandler env src client r s =
        ⟨match (env.pointsUpsert (env.uuidNew s).2
              { collectionName := collection,
                points := [{ id := (env.uuidNew s).1, vectors := req.vector,
                             payload := toPayload req.payload }],
                wait := some true }).1 with
          | some err => httpError ("Failed to add vector: " ++ err.message) 500
          | none =>
            { status := 200,
              body := Body.jsonMap [("id", (env.uuidNew s).1), ("status", "ok")] },
          (env.pointsUpsert (env.uuidNew s).2
            { collectionName := collection,
              points := [{ id := (env.uuidNew s).1, vectors := req.vector,
                           payload := toPayload req.payload }],
              wait := some true }).2,
          [Event.clientCreatePoint (env.uuidNew s).1 collection req.vector req.payload,
            Event.pointsUpsert
              { collectionName := collection,
                points := [{ id := (env.uuidNew s).1, vectors := req.vector,
                             payload := toPayload req.payload }],
                wait := some true }
              (env.pointsUpsert (env.uuidNew s).2
                { collectionName := collection,
                  points := [{ id := (env.uuidNew s).1, vectors := req.vector,
                               payload := toPayload req.payload }],
                  wait := some true }).1]⟩ ∧
      (addHandler env src client r s).trace =
        [Event.clientCreatePoint (env.uuidNew s).1 collection req.vector req.payload,
          Event.pointsUpsert
            { collectionName := collection,
              points := [{ id := (env.uuidNew s).1, vectors := req.vector,
                           payload := toPayload req.payload }],
              wait := some true }
            (env.pointsUpsert (env.uuidNew s).2
              { collectionName := collection,
                points := [{ id := (env.uuidNew s).1, vectors := req.vector,
                             payload := toPayload req.payload }],
                wait := some true }).1] ∧
      ∀ ev ∈ (addHandler env src client r s).trace, ev.isEmbedding = false := by
  rw [addHandler_vector env src client r s req hm hd hl, CreatePoint_trace]
  refine ⟨rfl, rfl, ?_⟩
  intro ev hev
  simp only [List.mem_cons, List.mem_singleton, List.not_mem_nil, or_false] at hev
  rcases hev with rfl | rfl <;> rfl

/-- A body with both a full-size vector and the text "hi", posted to a store that keeps its
points: the answer is 200, the store then holds one point with that vector, and no
embedding is computed. -/
theorem addHandler_explicit_vector_wins_witness :
    addHandler (pointStoreEnv ⟨"hi", sampleVector, [("k", "v")]⟩) "openai" mainClient
        ⟨"POST", [], ""⟩ [] =
      ⟨{ status := 200,
         body := Body.jsonMap
           [("id", "6ba7b810-9dad-41d1-80b4-00c04fd430c8"), ("status", "ok")] },
        [("test_collection",
          { id := "6ba7b810-9dad-41d1-80b4-00c04fd430c8", vectors := sampleVector,
            payload := [("k", pb.Value.stringValue "v")] })],
        [Event.clientCreatePoint "6ba7b810-9dad-41d1-80b4-00c04fd430c8" "test_collection"
            sampleVector [("k", "v")],
          Event.pointsUpsert
            { collectionName := "test_collection",
              points := [{ id := "6ba7b810-9dad-41d1-80b4-00c04fd430c8",
                           vectors := sampleVector,
                           payload := [("k", pb.Value.stringValue "v")] }],
              wait := some true } none]⟩ :=
  (addHandler_explicit_vector_wins (pointStoreEnv ⟨"hi", sampleVector, [("k", "v")]⟩)
    "openai" mainClient ⟨"POST", [], ""⟩ []
    ⟨"hi", sampleVector, [("k", "v")]⟩ rfl rfl sampleVector_length).1

theorem queryGet_absent (q : List (String × String)) (key : String)
    (h : ∀ kv ∈ q, kv.1 ≠ key) : queryGet q key = "" := by
  induction q with
  | nil => rfl
  | cons kv rest ih =>
    obtain ⟨k, v⟩ := kv
    have hk : k ≠ key := h (k, v) (List.mem_cons_self _ _)
    simp only [queryGet, hk, if_false]
    exact ih (fun kv hkv => h kv (List.mem_cons_of_mem _ hkv))

/-- C3: a `/search` request whose `term` parameter is absent or empty, and a POST to `/add`
whose decoded body has an empty text and a vector of another length than `vectorSize` (as
the body `{}` has), are answered 400 without any call to a provider or the store. -/
theorem missing_input_is_bad_request {σ : Type} (env : Env σ) (src : String)
    (client : QdrantClient) (fuel : Nat) (r : Request) (s : σ) :
    (((∀ kv ∈ r.query, kv.1 ≠ "term") ∨ queryGet r.query "term" = "") →
        searchHandler env src client fuel r s =
          ⟨some (httpError "Missing search term" 400), s, []⟩) ∧
      (∀ req, r.method = "POST" → env.jsonDecodeAdd r.body = .ok req → req.text = "" →
        req.vector.length ≠ vectorSize →
        addHandler env src client r s = ⟨httpError "Missing vector or text" 400, s, []⟩) ∧
      (r.method = "POST" →
        env.jsonDecodeAdd r.body = .ok { text := "", vector := [], payload := [] } →
        addHandler env src client r s = ⟨httpError "Missing vector or text" 400, s, []⟩) := by
  refine ⟨?_, ?_, ?_⟩
  · rintro (h | h)
    · exact searchHandler_missing_term env src client fuel r s (queryGet_absent _ _ h)
    · exact searchHandler_missing_term env src client fuel r s h
  · intro req hm hd ht hl
    exact addHandler_missing env src client r s req hm hd hl ht
  · intro hm hd
    exact addHandler_missing env src client r s _ hm hd (by decide) rfl

/-- The body `{}` posted to `/add`: 400 and no call at all. -/
theorem missing_input_is_bad_request_witness :
    addHandler memEnv "openai" mainClient ⟨"POST", [], "\x7b\x7d"⟩ [] =
      ⟨httpError "Missing vector or text" 400, [], []⟩ :=
  (missing_input_is_bad_request memEnv "openai" mainClient 0 ⟨"POST", [], "\x7b\x7d"⟩
    []).2.2 rfl rfl

/-- C7, as stated, fails: when the OpenAI response carries no embedding,
`getOpenAIEmbedding` and `getEmbedding` return a nil error. -/
theorem getOpenAIEmbedding_empty_counterexample :
    (getOpenAIEmbedding emptyOpenAIEnv "hello" []).val = ([], none) ∧
      (getEmbedding emptyOpenAIEnv "openai" "hello" []).val.2 = none := by
  decide

/-- C7, amended: in OpenAI mode, when the provider's response carries an empty list of
embeddings, `getOpenAIEmbedding` and `getEmbedding` return the nil vector with a nil
error; the empty result is turned into an error only by the handlers' length check, which
answers 500 "Embedding size mismatch" without a store call. -/
theorem getOpenAIEmbedding_empty_result {σ : Type} (env : Env σ) (client : QdrantClient)
    (fuel : Nat) (r : Request) (s : σ) (text : String) (resp : openai.EmbeddingResponse)
    (hok : (env.openaiCreateEmbeddings s
      { input := [text], model := openai.AdaEmbeddingV2 }).1 = .ok resp)
    (hempty : resp.data = []) :
    (getOpenAIEmbedding env text s).val = ([], none) ∧
      (getEmbedding env "openai" text s).val = ([], none) ∧
      (queryGet r.query "term" = text → text ≠ "" →
        (searchHandler env "openai" client fuel r s).val =
            some (httpError "Embedding size mismatch" 500) ∧
          ∀ ev ∈ (searchHandler env "openai" client fuel r s).trace, ev.isStore = false) ∧
      (∀ req, r.method = "POST" → env.jsonDecodeAdd r.body = .ok req → req.text = text →
        text ≠ "" → req.vector.length ≠ vectorSize →
        (addHandler env "openai" client r s).val = httpError "Embedding size mismatch" 500 ∧
          ∀ ev ∈ (addHandler env "openai" client r s).trace, ev.isStore = false) := by
  have h1 : (getOpenAIEmbedding env text s).val = ([], none) := by
    simp [getOpenAIEmbedding, hok, hempty]
  have h2 : (getEmbedding env "openai" text s).val = ([], none) := by
    simp [getEmbedding, embeddingOpenAI, h1]
  have hemb : ∀ ev, ev ∈ (getEmbedding env "openai" text s).trace → ev.isStore = false :=
    fun ev hev =>
      (isEmbedding_not_store ev (getEmbedding_trace_embedding env "openai" text s ev hev)).1
  refine ⟨h1, h2, ?_, ?_⟩
  · intro hq ht
    have hterm : queryGet r.query "term" ≠ "" := by rw [hq]; exact ht
    rw [searchHandler_size_mismatch env "openai" client fuel r s hterm
      (by rw [hq, h2]) (by rw [hq, h2]; decide), hq]
    exact ⟨rfl, hemb⟩
  · intro req hm hd hq ht hl
    have htext : req.text ≠ "" := by rw [hq]; exact ht
    rw [addHandler_size_mismatch env "openai" client r s req hm hd hl htext
      (by rw [hq, h2]) (by rw [hq, h2]; decide), hq]
    exact ⟨rfl, hemb⟩

/-- A search in OpenAI mode against a provider that returns no embedding: 500 "Embedding
size mismatch" and no store call. -/
theorem getOpenAIEmbedding_empty_result_witness :
    (searchHandler emptyOpenAIEnv "openai" mainClient 1
        ⟨"GET", [("term", "hello")], ""⟩ []).val =
        some (httpError "Embedding size mismatch" 500) ∧
      ∀ ev ∈ (searchHandler emptyOpenAIEnv "openai" mainClient 1
        ⟨"GET", [("term", "hello")], ""⟩ []).trace, ev.isStore = false :=
  (getOpenAIEmbedding_empty_result emptyOpenAIEnv mainClient 1
    ⟨"GET", [("term", "hello")], ""⟩ [] "hello" { data := [] } rfl rfl).2.2.1 rfl
    (by decide)

/-- C8, as stated, fails: a POST to `/add` with a one-element vector and the text "hi" is
answered 200 and a point is inserted, namely the embedding of the text. -/
theorem addHandler_wrong_size_vector_counterexample :
    (addHandler memEnv "local" mainClient
        ⟨"POST", [], "\x7b\"text\":\"hi\",\"vector\":[0]\x7d"⟩ ["test_collection"]).val =
        { status := 200,
          body := Body.jsonMap
            [("id", "6ba7b810-9dad-41d1-80b4-00c04fd430c8"), ("status", "ok")] } ∧
      (addHandler memEnv "local" mainClient
        ⟨"POST", [], "\x7b\"text\":\"hi\",\"vector\":[0]\x7d"⟩ ["test_collection"]).trace =
        [Event.getEmbedding "hi",
          Event.httpPost localEmbedURL "application/json" [("text", "hi")],
          Event.clientCreatePoint "6ba7b810-9dad-41d1-80b4-00c04fd430c8" "test_collection"
            sampleVector [],
          Event.pointsUpsert
            { collectionName := "test_collection",
              points := [{ id := "6ba7b810-9dad-41d1-80b4-00c04fd430c8",
                           vectors := sampleVector, payload := [] }],
              wait := some true } none] := by
  have h := addHandler_text memEnv "local" mainClient
    ⟨"POST", [], "\x7b\"text\":\"hi\",\"vector\":[0]\x7d"⟩ ["test_collection"]
    ⟨"hi", [⟨0⟩], []⟩ rfl rfl (by decide) (by decide) rfl sampleVector_length
  rw [h]
  exact ⟨rfl, rfl⟩

/-- C8, amended: for a POST to `/add` whose body carries a vector of another length than
`vectorSize` (non-empty or not), that vector is never handed to the store.  With an empty
text the request is answered 400 without any call.  With a non-empty text the handler
falls back to `getEmbedding` of the text: it answers 500 without a store call when the
embedding fails or has the wrong length; otherwise it runs one `CreatePoint` with the
embedding (one upsert of one point carrying it), the state afterwards is the one this
upsert leaves, and the answer is 200 with the new id when the upsert returns no error and
500 "Failed to add vector" with its message when it returns one. -/
theorem addHandler_wrong_size_vector {σ : Type} (env : Env σ) (src : String)
    (client : QdrantClient) (r : Request) (s : σ) (req : addRequest)
    (hm : r.method = "POST") (hd : env.jsonDecodeAdd r.body = .ok req)
    (hl : req.vector.length ≠ vectorSize) :
    (∀ ev ∈ (addHandler env src client r s).trace, ev.vectorsSized = true) ∧
      (∀ id coll payload,
        Event.clientCreatePoint id coll req.vector payload ∉
          (addHandler env src client r s).trace) ∧
      (req.text = "" →
        addHandler env src client r s = ⟨httpError "Missing vector or text" 400, s, []⟩) ∧
      (req.text ≠ "" → ∀ err, (getEmbedding env src req.text s).val.2 = some err →
        addHandler env src client r s =
            ⟨httpError ("Embedding error: " ++ err.message) 500,
              (getEmbedding env src req.text s).st,
              (getEmbedding env src req.text s).trace⟩ ∧
          ∀ ev ∈ (addHandler env src client r s).trace, ev.isStore = false) ∧
      (req.text ≠ "" → (getEmbedding env src req.text s).val.2 = none →
        (getEmbedding env src req.text s).val.1.length ≠ vectorSize →
        addHandler env src client r s =
            ⟨httpError "Embedding size mismatch" 500,
              (getEmbedding env src req.text s).st,
              (getEmbedding env src req.text s).trace⟩ ∧
          ∀ ev ∈ (addHandler env src client r s).trace, ev.isStore = false) ∧
      (req.text ≠ "" → (getEmbedding env src req.text s).val.2 = none →
        (getEmbedding env src req.text s).val.1.length = vectorSize →
        addHandler env src client r s =
          ⟨match (env.pointsUpsert (env.uuidNew (getEmbedding env src req.text s).st).2
                { collectionName := collection,
                  points :=
                    [{ id := (env.uuidNew (getEmbedding env src req.text s).st).1,
                       vectors := (getEmbedding env src req.text s).val.1,
                       payload := toPayload req.payload }],
                  wait := some true }).1 with
            | some err => httpError ("Failed to add vector: " ++ err.message) 500
            | none =>
              { status := 200,
                body := Body.jsonMap
                  [("id", (env.uuidNew (getEmbedding env src req.text s).st).1),
                    ("status", "ok")] },
            (env.pointsUpsert (env.uuidNew (getEmbedding env src req.text s).st).2
              { collectionName := collection,
                points :=
                  [{ id := (env.uuidNew (getEmbedding env src req.text s).st).1,
                     vectors := (getEmbedding env src req.text s).val.1,
                     payload := toPayload req.payload }],
                wait := some true }).2,
            (getEmbedding env src req.text s).trace ++
              [Event.clientCreatePoint
                  (env.uuidNew (getEmbedding env src req.text s).st).1 collection
                  (getEmbedding env src req.text s).val.1 req.payload,
                Event.pointsUpsert
                  { collectionName := collection,
                    points :=
                      [{ id := (env.uuidNew (getEmbedding env src req.text s).st).1,
                         vectors := (getEmbedding env src req.text s).val.1,
                         payload := toPayload req.payload }],
                    wait := some true }
                  (env.pointsUpsert (env.uuidNew (getEmbedding env src req.text s).st).2
                    { collectionName := collection,
                      points :=
                        [{ id := (env.uuidNew (getEmbedding env src req.text s).st).1,
                           vectors := (getEmbedding env src req.text s).val.1,
                           payload := toPayload req.payload }],
                      wait := some true }).1]⟩) := by
  have hemb : ∀ ev, ev ∈ (getEmbedding env src req.text s).trace →
      ev.isStore = false ∧ ev.vectorsSized = true := fun ev hev =>
    isEmbedding_not_store ev (getEmbedding_trace_embedding env src req.text s ev hev)
  have hsized : ∀ ev ∈ (addHandler env src client r s).trace, ev.vectorsSized = true := by
    intro ev hev
    by_cases ht : req.text = ""
    · rw [addHandler_missing env src client r s req hm hd hl ht] at hev
      simp at hev
    · cases he : (getEmbedding env src req.text s).val.2 with
      | some err =>
        rw [addHandler_embedding_error env src client r s req err hm hd hl ht he] at hev
        exact (hemb ev hev).2
      | none =>
        by_cases hv : (getEmbedding env src req.text s).val.1.length = vectorSize
        · rw [addHandler_text env src client r s req hm hd hl ht he hv,
            CreatePoint_trace] at hev
          simp only [List.mem_append, List.mem_cons, List.mem_singleton,
            List.not_mem_nil, or_false] at hev
          rcases hev with hev | rfl | rfl
          · exact (hemb ev hev).2
          · simp [Event.vectorsSized, hv]
          · simp [Event.vectorsSized, hv]
        · rw [addHandler_size_mismatch env src client r s req hm hd hl ht he hv] at hev
          exact (hemb ev hev).2
  refine ⟨hsized, ?_, ?_, ?_, ?_, ?_⟩
  · intro id coll payload hmem
    have h := hsized _ hmem
    simp only [Event.vectorsSized, beq_iff_eq] at h
    exact hl h
  · intro ht
    exact addHandler_missing env src client r s req hm hd hl ht
  · intro ht err he
    rw [addHandler_embedding_error env src client r s req err hm hd hl ht he]
    exact ⟨rfl, fun ev hev => (hemb ev hev).1⟩
  · intro ht he hv
    rw [addHandler_size_mismatch env src client r s req hm hd hl ht he hv]
    exact ⟨rfl, fun ev hev => (hemb ev hev).1⟩
  · intro ht he hv
    rw [addHandler_text env src client r s req hm hd hl ht he hv, CreatePoint_trace]
    rfl

/-- A one-element vector with the text "hi", posted in local mode to a store that keeps
its points: the embedding of the text is what the store then holds, and the answer is
200. -/
theorem addHandler_wrong_size_vector_witness :
    addHandler (pointStoreEnv ⟨"hi", [⟨0⟩], []⟩) "local" mainClient ⟨"POST", [], ""⟩ [] =
      ⟨{ status := 200,
         body := Body.jsonMap
           [("id", "6ba7b810-9dad-41d1-80b4-00c04fd430c8"), ("status", "ok")] },
        [("test_collection",
          { id := "6ba7b810-9dad-41d1-80b4-00c04fd430c8", vectors := sampleVector,
            payload := [] })],
        [Event.getEmbedding "hi",
          Event.httpPost localEmbedURL "application/json" [("text", "hi")],
          Event.clientCreatePoint "6ba7b810-9dad-41d1-80b4-00c04fd430c8" "test_collection"
            sampleVector [],
          Event.pointsUpsert
            { collectionName := "test_collection",
              points := [{ id := "6ba7b810-9dad-41d1-80b4-00c04fd430c8",
                           vectors := sampleVector, payload := [] }],
              wait := some true } none]⟩ :=
  (addHandler_wrong_size_vector (pointStoreEnv ⟨"hi", [⟨0⟩], []⟩) "local" mainClient
    ⟨"POST", [], ""⟩ [] ⟨"hi", [⟨0⟩], []⟩ rfl rfl (by decide)).2.2.2.2.2 (by decide) rfl
    sampleVector_length

/-- C10: for every embedding source other than "openai", "ollama" and "local" (any such
non-empty value of `EMBEDDING_MODE` is taken over unchecked), `getEmbedding` returns the
nil vector and a nil error without calling a provider; every `/search` with a non-empty
term, and every POST to `/add` with a non-empty text and no vector of `vectorSize`
elements, is then answered 500 "Embedding size mismatch" without a store call. -/
theorem unknown_embedding_mode {σ : Type} (env : Env σ) (src : String)
    (client : QdrantClient) (fuel : Nat) (r : Request) (s : σ)
    (h1 : src ≠ "openai") (h2 : src ≠ "ollama") (h3 : src ≠ "local") :
    (src ≠ "" → ∀ openaiKey, mainEmbeddingSource src openaiKey = .ok src) ∧
      (∀ text, getEmbedding env src text s = ⟨([], none), s, [Event.getEmbedding text]⟩) ∧
      (queryGet r.query "term" ≠ "" →
        searchHandler env src client fuel r s =
          ⟨some (httpError "Embedding size mismatch" 500), s,
            [Event.getEmbedding (queryGet r.query "term")]⟩) ∧
      (∀ req, r.method = "POST" → env.jsonDecodeAdd r.body = .ok req → req.text ≠ "" →
        req.vector.length ≠ vectorSize →
        addHandler env src client r s =
          ⟨httpError "Embedding size mismatch" 500, s, [Event.getEmbedding req.text]⟩) := by
  have hg : ∀ text, getEmbedding env src text s = ⟨([], none), s, [Event.getEmbedding text]⟩ :=
    fun text => getEmbedding_unknown_source env src text s h1 h2 h3
  refine ⟨?_, hg, ?_, ?_⟩
  · intro hne key
    have h1b : src ≠ embeddingOpenAI := h1
    simp [mainEmbeddingSource, hne, h1b]
  · intro ht
    rw [searchHandler_size_mismatch env src client fuel r s ht (by rw [hg])
      (by rw [hg]; exact nil_length_ne_vectorSize), hg]
  · intro req hm hd ht hl
    rw [addHandler_size_mismatch env src client r s req hm hd hl ht (by rw [hg])
      (by rw [hg]; exact nil_length_ne_vectorSize), hg]

/-- With `EMBEDDING_MODE=cohere`, a search for "hello" is answered 500 "Embedding size
mismatch" after the call of `getEmbedding` alone. -/
theorem unknown_embedding_mode_witness :
    searchHandler memEnv "cohere" mainClient 1 ⟨"GET", [("term", "hello")], ""⟩ [] =
      ⟨some (httpError "Embedding size mismatch" 500), [],
        [Event.getEmbedding "hello"]⟩ :=
  (unknown_embedding_mode memEnv "cohere" mainClient 1 ⟨"GET", [("term", "hello")], ""⟩ []
    (by decide) (by decide) (by decide)).2.2.1 (by decide)

end GoQdrant
